import Mathlib

/-!
Verification development for the Heist room/session orchestration engine.

The definitions below are a shallow embedding of the Python sources in
src/app (models.py, game_logic.py, websocket.py, utils.py, redis_client.py,
routes.py).  Python dicts are embedded as insertion-ordered association
lists; pydantic models become Lean structures; message payloads keep only
the fields the properties mention; asynchronous side effects (spawned
tasks, scheduled reversals) are recorded explicitly as values of an
Effect type.  Dynamic extra attributes installed on the pydantic model
(original_alert_level, shortcuts; declared via Extra.allow in
game_logic.py) are embedded as an Option field and a defaulted field.
-/

namespace Heist

/-- Association-list lookup, mirroring Python `d[k]` / `k in d`. -/
def alookup {α : Type} : List (String × α) → String → Option α
  | [], _ => none
  | (k1, v) :: rest, k => if k1 = k then some v else alookup rest k

/-- Association-list update/insert, mirroring Python `d[k] = v`
(updates in place when the key exists, appends otherwise). -/
def aset {α : Type} : List (String × α) → String → α → List (String × α)
  | [], k, v => [(k, v)]
  | (k1, v1) :: rest, k, v =>
    if k1 = k then (k, v) :: rest else (k1, v1) :: aset rest k v

/-- Association-list removal, mirroring Python `del d[k]`. -/
def aerase {α : Type} : List (String × α) → String → List (String × α)
  | [], _ => []
  | (k1, v1) :: rest, k => if k1 = k then rest else (k1, v1) :: aerase rest k

/-- Key membership, mirroring Python `k in d`. -/
def amem {α : Type} (l : List (String × α)) (k : String) : Bool :=
  (alookup l k).isSome

/-- models.py Player. -/
structure Player where
  id : String
  name : String
  role : String
  room_code : String
  connected : Bool
  is_host : Bool
deriving Repr, DecidableEq

/-- Puzzle record produced by game_logic.py generators; `data_solution`
embeds the optional "solution" entry of the opaque data blob (used only
by the circuit-validation branch), `completed` defaults to false for the
missing-key case read via `.get("completed", False)`. -/
structure Puzzle where
  kind : String
  difficulty : Int
  completed : Bool
  completes_stage : Bool
  required_roles : List String
  hint_active : Bool
  locks : Option Int
  data_solution : Option Int
deriving Repr, DecidableEq

/-- Submitted puzzle solutions as seen by websocket.py: a JSON boolean, a
dict (modelled as carrying its "success" entry and its optional
"completesStage" entry), or some other raw value. -/
inductive Solution where
  | bool (b : Bool)
  | dict (success : Bool) (completesStage : Option Bool)
  | raw (v : Int)
deriving Repr, DecidableEq

/-- models.py GameRoom.  `timer_votes` is split into its two lists; the
dynamic attributes `original_alert_level` and `shortcuts` appear as an
Option field (none = attribute absent) and a defaulted counter. -/
structure GameRoom where
  code : String
  players : List (String × Player)
  stage : Int
  alert_level : Int
  timer : Int
  status : String
  puzzles : List (String × Puzzle)
  stage_completion : List (String × List (String × Bool))
  next_events_visible : Bool
  last_power_description : Option String
  timer_vote_active : Bool
  timer_votes_yes : List String
  timer_votes_no : List String
  timer_vote_initiator : Option String
  timer_vote_time_limit : Int
  original_alert_level : Option Int
  shortcuts : Int
deriving Repr, DecidableEq

/-- Server-to-client messages, restricted to the payload fields the
verified properties mention.  `game_over` carries the "result" tag, the
optional "connected_count" field (absent for time expiry) and the
"remaining_players" list. -/
inductive Msg where
  | error (context message : String)
  | player_connected (pid : String)
  | player_disconnected (pid : String)
  | game_started (stage timer : Int)
  | puzzle_data (pid : String) (puzzle : Puzzle)
  | puzzle_completed (pid role : String) (team : Bool)
  | player_waiting (stage : Int)
  | team_puzzle_ready
  | stage_completed (next_stage : Int)
  | game_completed
  | timer_update (timer : Int) (sync : Bool)
  | timer_extended (new_timer alert : Int)
  | timer_vote_initiated (initiator : String)
  | timer_vote_update (pid : String) (vote : Bool) (votes : List String)
  | timer_vote_completed (success : Bool) (votes : List String)
      (required yes no total : Nat)
  | game_over (result : String) (connected_count : Option Nat)
      (remaining : List String)
  | power_used (pid role : String)
  | role_confirmed (pid role : String)
  | system_message (text : String)
  | player_left (pid : String)
deriving Repr, DecidableEq

/-- Background work spawned or scheduled by a handler
(asyncio.create_task / delayed reversal timers). -/
inductive Effect where
  | spawn_game_timer
  | spawn_vote_timer
  | spawn_lookout_task (pid : String)
  | schedule_restore_alert (delay : Int)
  | schedule_restore_lookout (delay orig : Int)
  | schedule_cleanup_check
  | trigger_random_event
  | process_vote_result
  | delete_room
deriving Repr, DecidableEq

/-- Result of one message-handler invocation: the room written back to
the store, the room-wide broadcasts, the replies sent only to the
requesting connection, per-player direct sends, and spawned effects. -/
structure OpResult where
  room : GameRoom
  broadcasts : List Msg
  toSender : List Msg
  direct : List (String × Msg)
  effects : List Effect
deriving Repr, DecidableEq

/-- Error reply helper: a typed error message to the requester only. -/
def errReply (room : GameRoom) (context message : String) : OpResult :=
  { room := room, broadcasts := [], toSender := [Msg.error context message],
    direct := [], effects := [] }

/-- Number of players whose connected flag is set (the connected-player
count computed at several places in websocket.py and game_logic.py). -/
def connectedCount (room : GameRoom) : Nat :=
  (room.players.filter (fun p => p.2.connected)).length

/-- Names of the connected players, in roster order. -/
def connectedNames (room : GameRoom) : List String :=
  (room.players.filter (fun p => p.2.connected)).map (fun p => p.2.name)

/-- is_host flag of the requester (false when absent from the roster). -/
def playerIsHost (room : GameRoom) (pid : String) : Bool :=
  match alookup room.players pid with
  | some p => p.is_host
  | none => false

/-- Role string of a player (empty when absent). -/
def playerRole (room : GameRoom) (pid : String) : String :=
  match alookup room.players pid with
  | some p => p.role
  | none => ""

/-- game_logic.py puzzle type tables for the four roles (indexed by stage). -/
def hackerTypes : Int → String
  | 1 => "circuit"
  | 2 => "password_crack"
  | 3 => "firewall_bypass"
  | 4 => "encryption_key"
  | _ => "system_override"

def safeCrackerTypes : Int → String
  | 1 => "lock_combination"
  | 2 => "pattern_recognition"
  | 3 => "multi_lock"
  | 4 => "audio_sequence"
  | _ => "timed_lock"

def demolitionsTypes : Int → String
  | 1 => "wire_cutting"
  | 2 => "time_bomb"
  | 3 => "circuit_board"
  | 4 => "explosive_sequence"
  | _ => "final_detonation"

def lookoutTypes : Int → String
  | 1 => "surveillance"
  | 2 => "patrol_pattern"
  | 3 => "security_system"
  | 4 => "alarm"
  | _ => "escape_route"

/-- A fresh (uncompleted) role puzzle with the given type tag. -/
def freshPuzzle (kind : String) (stage : Int) : Puzzle :=
  { kind := kind, difficulty := stage, completed := false,
    completes_stage := false, required_roles := [], hint_active := false,
    locks := none, data_solution := none }

/-- game_logic.generate_team_puzzle; `choice` resolves the random pick
among the three advanced stage-5 team puzzles. -/
def generate_team_puzzle (stage : Int) (is_stage_completion : Bool)
    (choice : Nat) : Puzzle :=
  let kind :=
    if stage = 3 then "team_puzzle_code_relay"
    else if stage = 4 then "team_puzzle_power_grid"
    else if stage = 5 then
      (if choice % 3 = 0 then "team_puzzle_pressure_plate"
       else if choice % 3 = 1 then "team_puzzle_signal_frequency"
       else "team_puzzle_data_chain")
    else "team_puzzle_" ++ toString stage
  { kind := kind, difficulty := stage, completed := false,
    completes_stage := is_stage_completion,
    required_roles :=
      if stage = 3 then ["Hacker", "Safe Cracker"]
      else ["Hacker", "Safe Cracker", "Demolitions", "Lookout"],
    hint_active := false, locks := none, data_solution := none }

/-- The role-specific puzzle for a player, none when the role is not one
of the four known roles (such players get no puzzle). -/
def rolePuzzle (role : String) (stage : Int) : Option Puzzle :=
  if role = "Hacker" then some (freshPuzzle (hackerTypes stage) stage)
  else if role = "Safe Cracker" then some (freshPuzzle (safeCrackerTypes stage) stage)
  else if role = "Demolitions" then some (freshPuzzle (demolitionsTypes stage) stage)
  else if role = "Lookout" then some (freshPuzzle (lookoutTypes stage) stage)
  else none

/-- game_logic.generate_puzzles; `roll` resolves the 25 percent chance of
a team-only stage-completing puzzle for stages above 3, `choice` the
stage-5 team puzzle pick. -/
def generate_puzzles (room : GameRoom) (stage : Int) (roll : Bool)
    (choice : Nat) : List (String × Puzzle) :=
  if stage > 3 ∧ roll then
    [("team", generate_team_puzzle stage true choice)]
  else
    let base := room.players.foldl (fun acc p =>
      match rolePuzzle p.2.role stage with
      | some puz => aset acc p.1 puz
      | none => acc) []
    if stage ≥ 3 then aset base "team" (generate_team_puzzle stage false choice)
    else base

/-- game_logic.validate_puzzle_solution. -/
def validate_puzzle_solution (puzzle : Puzzle) (solution : Solution) : Bool :=
  match solution with
  | .bool b => b
  | .dict success _ => success
  | .raw v =>
    if puzzle.kind = "circuit" ∧ puzzle.data_solution.isSome then
      puzzle.data_solution = some v
    else true

/-- websocket.py team-puzzle solution unpacking: a dict carrying a
completesStage key yields (its success entry, its completesStage entry);
any other payload is used for its truthiness with no stage-completion
flag (a dict without the key is non-empty, hence truthy). -/
def teamSolutionFlags : Solution → Bool × Bool
  | .dict success (some cs) => (success, cs)
  | .dict _ none => (true, false)
  | .bool b => (b, false)
  | .raw v => (v ≠ 0, false)

/-- True when every individual (non-team) puzzle is completed
(websocket.py line 571). -/
def allIndividualCompleted (puzzles : List (String × Puzzle)) : Bool :=
  puzzles.all (fun p => p.1 = "team" ∨ p.2.completed)

/-- True when a team puzzle exists and is not yet completed
(websocket.py line 576). -/
def teamBlocking (puzzles : List (String × Puzzle)) : Bool :=
  match alookup puzzles "team" with
  | some t => ¬ t.completed
  | none => false

/-- True when every puzzle including the team one is completed
(websocket.py line 780). -/
def allPuzzlesCompleted (puzzles : List (String × Puzzle)) : Bool :=
  puzzles.all (fun p => p.2.completed)

/-- Fresh puzzle payloads pushed directly to each connected player after
stage setup (websocket.py: the per-player puzzle_data sends). -/
def puzzleSends (room : GameRoom) (conns : List String) :
    List (String × Msg) :=
  room.players.foldl (fun acc p =>
    match alookup room.puzzles p.1 with
    | some puz => if p.1 ∈ conns then acc ++ [(p.1, Msg.puzzle_data p.1 puz)]
                  else acc
    | none => acc) []

/-- The shared advance-to-next-stage block (websocket.py lines 584 to 640,
repeated at 726 to 778, 785 to 837 and 1313 to 1363): stage += 1; above 5
the game completes, otherwise regenerate puzzles, add the 240 second
stage bonus, reset the new stage's completion set and push fresh
puzzles. -/
def advance_stage (room : GameRoom) (roll : Bool) (choice : Nat)
    (conns : List String) : OpResult :=
  let room1 := { room with stage := room.stage + 1 }
  if room1.stage > 5 then
    let room2 := { room1 with status := "completed" }
    { room := room2, broadcasts := [Msg.game_completed], toSender := [],
      direct := [], effects := [Effect.schedule_cleanup_check] }
  else
    let room2 := { room1 with
        puzzles := generate_puzzles room1 room1.stage roll choice,
        timer := room1.timer + 240,
        stage_completion := aset room1.stage_completion (toString room1.stage) [] }
    { room := room2, broadcasts := [Msg.stage_completed room2.stage],
      toSender := [], direct := puzzleSends room2 conns, effects := [] }

/-- websocket.py select_role branch (lines 1085 to 1191).  A missing or
empty role string is the falsy "No role specified" case. -/
def select_role_ws (room : GameRoom) (player_id : String) (role : String) :
    OpResult :=
  if role = "" then
    errReply room "role_selection" "No role specified"
  else if room.players.any (fun q => q.2.role = role ∧ q.1 ≠ player_id) then
    errReply room "role_selection" "Role already taken"
  else
    let players1 :=
      match alookup room.players player_id with
      | some p => aset room.players player_id { p with role := role }
      | none => room.players
    let room1 := { room with players := players1 }
    { room := room1, broadcasts := [Msg.role_confirmed player_id role],
      toSender := [], direct := [], effects := [] }

/-- Names of the players that have no role yet (websocket.py lines 439
to 446). -/
def playersWithoutRoles (room : GameRoom) : List String :=
  (room.players.filter (fun p => p.2.role = "")).map (fun p => p.2.name)

/-- websocket.py start_game branch (lines 396 to 493). -/
def start_game_ws (room : GameRoom) (player_id : String) (roll : Bool)
    (choice : Nat) (conns : List String) : OpResult :=
  if ¬ playerIsHost room player_id then
    errReply room "game_start" "Only the host can start the game"
  else if room.status ≠ "waiting" then
    errReply room "game_start" "Game is already in progress"
  else if room.players.length < 2 then
    errReply room "game_start" "At least 2 players are required to start the game"
  else if playersWithoutRoles room ≠ [] then
    errReply room "game_start" "Not all players have selected roles"
  else
    let room1 := { room with
        status := "in_progress", stage := 1,
        alert_level := 0, timer := 300, stage_completion := [("1", [])] }
    let room2 := { room1 with puzzles := generate_puzzles room1 1 roll choice }
    { room := room2,
      broadcasts := [Msg.game_started room2.stage room2.timer],
      toSender := [], direct := puzzleSends room2 conns,
      effects := [Effect.spawn_game_timer] }

/-- websocket.py puzzle_solution branch, individual case (lines 495 to
640); the requester's id is a key of the puzzles dict. -/
def puzzle_solution_individual (room : GameRoom) (player_id : String)
    (puzzle : Puzzle) (sol : Solution) (roll : Bool) (choice : Nat)
    (conns : List String) : OpResult :=
  if validate_puzzle_solution puzzle sol then
    let puzzles1 := aset room.puzzles player_id { puzzle with completed := true }
    let cs := toString room.stage
    let compMap := (alookup room.stage_completion cs).getD []
    let room1 := { room with
        puzzles := puzzles1,
        stage_completion :=
          aset room.stage_completion cs (aset compMap player_id true) }
    let completedMsg := Msg.puzzle_completed player_id (playerRole room1 player_id) false
    let waiting := if player_id ∈ conns then
        [(player_id, Msg.player_waiting room1.stage)] else []
    if allIndividualCompleted room1.puzzles then
      if teamBlocking room1.puzzles then
        { room := room1, broadcasts := [completedMsg, Msg.team_puzzle_ready],
          toSender := [], direct := waiting, effects := [] }
      else
        let adv := advance_stage room1 roll choice conns
        { room := adv.room, broadcasts := completedMsg :: adv.broadcasts,
          toSender := [], direct := waiting ++ adv.direct,
          effects := adv.effects }
    else
      { room := room1, broadcasts := [completedMsg], toSender := [],
        direct := waiting, effects := [] }
  else
    { room := room, broadcasts := [], toSender := [], direct := [],
      effects := [] }

/-- websocket.py puzzle_solution branch, team case (lines 641 to 837);
the requester has no individual puzzle and the "team" key exists. -/
def puzzle_solution_team (room : GameRoom) (player_id : String)
    (team_puzzle : Puzzle) (sol : Solution) (roll : Bool) (choice : Nat)
    (conns : List String) : OpResult :=
  let flags := teamSolutionFlags sol
  if flags.1 then
    let puzzles1 := aset room.puzzles "team" { team_puzzle with completed := true }
    let room1 := { room with puzzles := puzzles1 }
    let completedMsg := Msg.puzzle_completed player_id (playerRole room1 player_id) true
    let waiting := if player_id ∈ conns then
        [(player_id, Msg.player_waiting room1.stage)] else []
    if flags.2 ∨ team_puzzle.completes_stage then
      let adv := advance_stage room1 roll choice conns
      { room := adv.room, broadcasts := completedMsg :: adv.broadcasts,
        toSender := [], direct := waiting ++ adv.direct,
        effects := adv.effects }
    else if allPuzzlesCompleted room1.puzzles then
      let adv := advance_stage room1 roll choice conns
      { room := adv.room, broadcasts := completedMsg :: adv.broadcasts,
        toSender := [], direct := waiting ++ adv.direct,
        effects := adv.effects }
    else
      { room := room1, broadcasts := [completedMsg], toSender := [],
        direct := waiting, effects := [] }
  else
    { room := room, broadcasts := [], toSender := [], direct := [],
      effects := [] }

/-- websocket.py puzzle_solution dispatch: individual when the requester
owns a puzzle, else team when a team puzzle exists, else nothing. -/
def puzzle_solution_ws (room : GameRoom) (player_id : String)
    (sol : Solution) (roll : Bool) (choice : Nat) (conns : List String) :
    OpResult :=
  match alookup room.puzzles player_id with
  | some puzzle => puzzle_solution_individual room player_id puzzle sol roll choice conns
  | none =>
    match alookup room.puzzles "team" with
    | some team_puzzle => puzzle_solution_team room player_id team_puzzle sol roll choice conns
    | none => { room := room, broadcasts := [], toSender := [],
                direct := [], effects := [] }

/-- websocket.py action complete_stage branch (lines 1276 to 1364). -/
def complete_stage_ws (room : GameRoom) (player_id : String)
    (currentStage : Int) (roll : Bool) (choice : Nat)
    (conns : List String) : OpResult :=
  if ¬ playerIsHost room player_id then
    errReply room "complete_stage" "Only the host can complete the stage"
  else if currentStage ≠ room.stage then
    errReply room "complete_stage" "Stage mismatch"
  else
    advance_stage room roll choice conns

/-- Marking the disconnecting player's record as disconnected while
keeping it in the roster (websocket.py lines 268 to 279). -/
def markDisconnected (room : GameRoom) (player_id : String) : GameRoom :=
  match alookup room.players player_id with
  | some p => { room with
      players := aset room.players player_id { p with connected := false } }
  | none => room

/-- websocket.py handle_player_disconnect (lines 261 to 372) for a room
present in the store: mark the player disconnected (keeping the record),
broadcast the disconnect, fail the game when fewer than 2 connected
players remain while in progress, and reclaim terminal rooms once nobody
is connected (that last check reads the status loaded before this
handler's own mutation). -/
def handle_player_disconnect (room : GameRoom) (player_id : String) :
    OpResult :=
  let origStatus := room.status
  let room1 := markDisconnected room player_id
  let cc := connectedCount room1
  let names := connectedNames room1
  let base := [Msg.player_disconnected player_id]
  let res :=
    if room1.status = "in_progress" ∧ cc < 2 then
      let room2 := { room1 with status := "failed" }
      { room := room2,
        broadcasts := base ++
          [Msg.game_over "insufficient_players" (some cc) names],
        toSender := [], direct := [],
        effects := [Effect.schedule_cleanup_check] }
    else
      { room := room1, broadcasts := base, toSender := [], direct := [],
        effects := ([] : List Effect) }
  if (origStatus = "completed" ∨ origStatus = "failed") ∧ cc = 0 then
    { res with effects := res.effects ++ [Effect.delete_room] }
  else res

/-- websocket.py initiate_timer_vote branch (lines 885 to 954). -/
def initiate_timer_vote (room : GameRoom) (player_id : String) : OpResult :=
  if room.timer_vote_active then
    errReply room "timer_vote" "A timer extension vote is already in progress"
  else
    let room1 := { room with
        timer_vote_active := true, timer_votes_yes := [],
        timer_votes_no := [], timer_vote_initiator := some player_id }
    { room := room1, broadcasts := [Msg.timer_vote_initiated player_id],
      toSender := [], direct := [], effects := [Effect.spawn_vote_timer] }

/-- websocket.py extend_timer_vote branch (lines 956 to 1050); a missing
vote value defaults to yes.  When every voter count reaches the connected
count the result is processed immediately (recorded as an effect). -/
def extend_timer_vote (room : GameRoom) (player_id : String) (vote : Bool) :
    OpResult :=
  if ¬ room.timer_vote_active then
    errReply room "timer_vote" "No timer extension vote is currently active"
  else if player_id ∈ room.timer_votes_yes ∨ player_id ∈ room.timer_votes_no then
    errReply room "timer_vote" "You have already voted"
  else
    let room1 :=
      if vote then { room with timer_votes_yes := room.timer_votes_yes ++ [player_id] }
      else { room with timer_votes_no := room.timer_votes_no ++ [player_id] }
    let all_voters := room1.timer_votes_yes ++ room1.timer_votes_no
    { room := room1,
      broadcasts := [Msg.timer_vote_update player_id vote all_voters],
      toSender := [], direct := [],
      effects :=
        if all_voters.length ≥ connectedCount room1 then
          [Effect.process_vote_result]
        else [] }

/-- game_logic.process_timer_vote_result (lines 647 to 741): deactivate
the vote, compute required = max(1, connected // 2 + 1), on success add
60 seconds and one alert level (broadcasting the extension), broadcast
the detailed outcome in both cases, then clear the vote lists. -/
def process_timer_vote_result (room : GameRoom) : OpResult :=
  let room1 := { room with timer_vote_active := false }
  let yes := room1.timer_votes_yes.length
  let no := room1.timer_votes_no.length
  let cc := connectedCount room1
  let required := max 1 (cc / 2 + 1)
  let success := decide (yes ≥ required)
  let room2 :=
    if success then
      { room1 with
        timer := room1.timer + 60,
        alert_level := room1.alert_level + 1 }
    else room1
  let outcome :=
    Msg.timer_vote_completed success
      (room2.timer_votes_yes ++ room2.timer_votes_no) required yes no cc
  let room3 := { room2 with timer_votes_yes := [], timer_votes_no := [] }
  { room := room3,
    broadcasts :=
      (if success then [Msg.timer_extended room2.timer room2.alert_level]
       else []) ++ [outcome],
    toSender := [], direct := [], effects := [] }

/-- game_logic.handle_power_usage (lines 229 to 295); returns the mutated
room, the success flag and the spawned effects. -/
def handle_power_usage (room : GameRoom) (player_id role : String) :
    GameRoom × Bool × List Effect :=
  if role = "Hacker" then
    let room1 := { room with timer := room.timer + 45 }
    let room2 :=
      if room1.alert_level > 0 then
        { room1 with alert_level := room1.alert_level - 1 }
      else room1
    ({ room2 with
        last_power_description :=
          some "Slowed Security Systems - Added 45s and reduced alert level" },
      true, [])
  else if role = "Safe Cracker" then
    let room1 := { room with timer := room.timer + 30 }
    let room2 :=
      match alookup room1.puzzles player_id with
      | some puz =>
        let puz1 := { puz with hint_active := true }
        let puz2 :=
          match puz1.locks with
          | some n => if n > 0 then { puz1 with locks := some (n - 1) } else puz1
          | none => puz1
        { room1 with puzzles := aset room1.puzzles player_id puz2 }
      | none => room1
    ({ room2 with
        last_power_description :=
          some "Lock Mastery - Revealed solution hints and added 30s" },
      true, [])
  else if role = "Demolitions" then
    let room1 := { room with
        timer := room.timer + 20,
        shortcuts := room.shortcuts + 1 }
    let step :=
      match room1.original_alert_level with
      | none =>
        ({ room1 with
            original_alert_level := some room1.alert_level,
            alert_level := max 0 (room1.alert_level - 2) },
          [Effect.schedule_restore_alert 45])
      | some _ => (room1, ([] : List Effect))
    ({ step.1 with
        last_power_description :=
          some "Structural Weakness - Created shortcuts and reduced event chance" },
      true, step.2)
  else if role = "Lookout" then
    ({ room with next_events_visible := true }, true,
      [Effect.spawn_lookout_task player_id])
  else (room, false, [])

/-- websocket.py use_power branch (lines 839 to 883). -/
def use_power_ws (room : GameRoom) (player_id : String) : OpResult :=
  let role := playerRole room player_id
  let r := handle_power_usage room player_id role
  { room := r.1,
    broadcasts :=
      if r.2.1 ∧ role ≠ "Lookout" then [Msg.power_used player_id role]
      else [],
    toSender := [], direct := [], effects := r.2.2 }

/-- game_logic.restore_alert_level (lines 298 to 331), applied to the
room as reloaded when the 45 second delay fires: restore the snapshot
and drop the bookkeeping attribute. -/
def restore_alert_level (room : GameRoom) : GameRoom × List Msg :=
  match room.original_alert_level with
  | some orig =>
    ({ room with alert_level := orig, original_alert_level := none },
      [Msg.system_message "Demolitions effect expired. Alert level restored."])
  | none => (room, [])

/-- Outcome of one iteration of the countdown loop. -/
inductive TickResult where
  | halt (room : GameRoom) (msgs : List Msg) (effects : List Effect)
  | step (room : GameRoom) (msgs : List Msg) (effects : List Effect)
deriving Repr, DecidableEq

def TickResult.room : TickResult → GameRoom
  | .halt r _ _ => r
  | .step r _ _ => r

def TickResult.msgs : TickResult → List Msg
  | .halt _ m _ => m
  | .step _ m _ => m

/-- One iteration of game_logic.run_game_timer (lines 481 to 541) on the
freshly reloaded room: exit when the timer is exhausted or the game is
not in progress; otherwise decrement, persist, broadcast at the reduced
frequency, check random events every 30 seconds, and on reaching zero
fail the game and broadcast game over. -/
def timer_tick (room : GameRoom) : TickResult :=
  if room.timer ≤ 0 ∨ room.status ≠ "in_progress" then
    .halt room [] []
  else
    let room1 := { room with timer := room.timer - 1 }
    let send := room1.timer % 15 = 0 ∨
      (room1.timer ≤ 30 ∧ room1.timer % 5 = 0) ∨ room1.timer ≤ 10
    let msgs := if send then [Msg.timer_update room1.timer true] else []
    let effs := if room1.timer % 30 = 0 then [Effect.trigger_random_event]
      else ([] : List Effect)
    if room1.timer ≤ 0 then
      let room2 := { room1 with status := "failed" }
      .halt room2 (msgs ++ [Msg.game_over "time_expired" none []])
        (effs ++ [Effect.schedule_cleanup_check])
    else
      .step room1 msgs effs

/-- Iterated countdown loop with explicit fuel, accumulating broadcasts;
the loop begins with the synchronizing timer_update of the loaded
timer. -/
def run_timer_loop : Nat → GameRoom → List Msg → GameRoom × List Msg
  | 0, room, acc => (room, acc)
  | Nat.succ n, room, acc =>
    match timer_tick room with
    | .halt r m _ => (r, acc ++ m)
    | .step r m _ => run_timer_loop n r (acc ++ m)

/-- game_logic.run_game_timer modelled with fuel bounding the number of
one-second iterations. -/
def run_game_timer (fuel : Nat) (room : GameRoom) : GameRoom × List Msg :=
  run_timer_loop fuel room [Msg.timer_update room.timer true]

/-- game_logic.handle_lookout_power, alert-reduction part (lines 398 to
411): when the alert level is positive, decrement it and schedule its
restoration after 60 seconds. -/
def lookout_alert_reduce (room : GameRoom) : GameRoom × List Effect :=
  if room.alert_level > 0 then
    ({ room with alert_level := room.alert_level - 1 },
      [Effect.schedule_restore_lookout 60 room.alert_level])
  else (room, [])

/-- game_logic.restore_lookout_effect (lines 417 to 446): restore the
recorded level only when the current level is still lower. -/
def restore_lookout_effect (room : GameRoom) (orig : Int) : GameRoom :=
  if room.alert_level < orig then { room with alert_level := orig } else room

/-- game_logic.reset_lookout_ability (lines 449 to 464). -/
def reset_lookout_ability (room : GameRoom) : GameRoom :=
  { room with next_events_visible := false }

/-- websocket.py leave_game branch (lines 1366 to 1459): remove the
player record entirely, broadcast the departure, fail an in-progress
game left with fewer than 2 roster entries, and delete an emptied
room. -/
def leave_game_ws (room : GameRoom) (player_id : String) : OpResult :=
  let room1 :=
    if amem room.players player_id then
      { room with players := aerase room.players player_id }
    else room
  let base := [Msg.player_left player_id]
  if room1.status = "in_progress" ∧ room1.players.length < 2 then
    let room2 := { room1 with status := "failed" }
    { room := room2,
      broadcasts := base ++
        [Msg.game_over "insufficient_players" (some room2.players.length)
          (room2.players.map (fun p => p.2.name))],
      toSender := [], direct := [],
      effects := if room2.players = [] then [Effect.delete_room] else [] }
  else
    { room := room1, broadcasts := base, toSender := [], direct := [],
      effects := [] }

/-- routes.join_room (lines 148 to 188): guests may join only while the
room is waiting; the new player starts with no role, connected, not
host. -/
def join_room_api (room : GameRoom) (player_id name : String) : OpResult :=
  if room.status ≠ "waiting" then
    errReply room "join" "Game already in progress"
  else
    let room1 := { room with
        players := aset room.players player_id
          { id := player_id, name := name, role := "",
            room_code := room.code, connected := true, is_host := false } }
    { room := room1, broadcasts := [], toSender := [], direct := [],
      effects := [] }

/-- The modeled client-triggered and background operations on a room
record; randomness and the live-connection set appear as explicit
arguments. -/
inductive GameOp where
  | start (pid : String) (roll : Bool) (choice : Nat) (conns : List String)
  | solvePuzzle (pid : String) (sol : Solution) (roll : Bool) (choice : Nat)
      (conns : List String)
  | completeStageAct (pid : String) (cur : Int) (roll : Bool) (choice : Nat)
      (conns : List String)
  | selectRoleAct (pid role : String)
  | usePower (pid : String)
  | initiateVote (pid : String)
  | castVote (pid : String) (v : Bool)
  | voteResult
  | disconnect (pid : String)
  | leave (pid : String)
  | join (pid name : String)
  | tick
  | restoreAlert
  | lookoutReduce
  | restoreLookout (orig : Int)
  | resetLookout
deriving Repr, DecidableEq

/-- The room record each operation writes back to the store. -/
def applyOp : GameOp → GameRoom → GameRoom
  | .start pid roll choice conns, room => (start_game_ws room pid roll choice conns).room
  | .solvePuzzle pid sol roll choice conns, room =>
      (puzzle_solution_ws room pid sol roll choice conns).room
  | .completeStageAct pid cur roll choice conns, room =>
      (complete_stage_ws room pid cur roll choice conns).room
  | .selectRoleAct pid role, room => (select_role_ws room pid role).room
  | .usePower pid, room => (use_power_ws room pid).room
  | .initiateVote pid, room => (initiate_timer_vote room pid).room
  | .castVote pid v, room => (extend_timer_vote room pid v).room
  | .voteResult, room => (process_timer_vote_result room).room
  | .disconnect pid, room => (handle_player_disconnect room pid).room
  | .leave pid, room => (leave_game_ws room pid).room
  | .join pid name, room => (join_room_api room pid name).room
  | .tick, room => (timer_tick room).room
  | .restoreAlert, room => (restore_alert_level room).1
  | .lookoutReduce, room => (lookout_alert_reduce room).1
  | .restoreLookout orig, room => restore_lookout_effect room orig
  | .resetLookout, room => reset_lookout_ability room

/-- Outcome of one delivery attempt over a live connection. -/
inductive SendOutcome where
  | ok
  | fail
deriving Repr, DecidableEq

/-- utils.broadcast_to_room inner fan-out (lines 81 to 99): walk the
member ids, skip the excluded one, attempt delivery on each live
connection, count successes and drop (only) the failing connections. -/
def broadcast_fanout : List String → List (String × SendOutcome) →
    Option String → Nat × List (String × SendOutcome)
  | [], conns, _ => (0, conns)
  | pid :: rest, conns, exclude =>
    if exclude = some pid then broadcast_fanout rest conns exclude
    else
      match alookup conns pid with
      | some SendOutcome.ok =>
        let r := broadcast_fanout rest conns exclude
        (r.1 + 1, r.2)
      | some SendOutcome.fail => broadcast_fanout rest (aerase conns pid) exclude
      | none => broadcast_fanout rest conns exclude

/-- utils.broadcast_to_room (lines 54 to 112): resolve the member ids;
with no ids the function returns early with no count (Python None);
otherwise it fans out and returns the success count.  The surrounding
try/except never lets an exception escape, which the model reflects by
being a total function (a failing send is the SendOutcome.fail case and
only drops that connection). -/
def broadcast_to_room (player_ids : List String)
    (conns : List (String × SendOutcome)) (exclude : Option String) :
    Option Nat × List (String × SendOutcome) :=
  if player_ids = [] then (none, conns)
  else
    let r := broadcast_fanout player_ids conns exclude
    (some r.1, r.2)

/-- JSON values as stored by redis_client.py (json.dumps / json.loads
round-trip is the identity on this representation, so the stored value is
modelled as the JSON tree itself). -/
inductive Json where
  | null
  | bool (b : Bool)
  | int (n : Int)
  | str (s : String)
  | arr (xs : List Json)
  | obj (fields : List (String × Json))

/-- Read a required string entry of a JSON object. -/
def jStr (fields : List (String × Json)) (k : String) : Option String :=
  match alookup fields k with
  | some (Json.str s) => some s
  | _ => none

/-- Read a boolean entry with a pydantic-style default. -/
def jBoolD (fields : List (String × Json)) (k : String) (d : Bool) : Bool :=
  match alookup fields k with
  | some (Json.bool b) => b
  | _ => d

/-- Read an integer entry with a pydantic-style default. -/
def jIntD (fields : List (String × Json)) (k : String) (d : Int) : Int :=
  match alookup fields k with
  | some (Json.int n) => n
  | _ => d

/-- pydantic Player.dict(). -/
def playerToJson (p : Player) : Json :=
  Json.obj [("id", Json.str p.id), ("name", Json.str p.name),
    ("role", Json.str p.role), ("room_code", Json.str p.room_code),
    ("connected", Json.bool p.connected), ("is_host", Json.bool p.is_host)]

/-- pydantic Player(**data): the four string fields are required, the two
flags default to their model defaults. -/
def playerOfJson : Json → Option Player
  | Json.obj fields => do
    let id ← jStr fields "id"
    let name ← jStr fields "name"
    let role ← jStr fields "role"
    let rc ← jStr fields "room_code"
    pure {
      id := id, name := name, role := role, room_code := rc,
      connected := jBoolD fields "connected" true,
      is_host := jBoolD fields "is_host" false }
  | _ => none

/-- Serialized puzzle entry. -/
def puzzleToJson (p : Puzzle) : Json :=
  Json.obj ([("type", Json.str p.kind), ("difficulty", Json.int p.difficulty),
    ("completed", Json.bool p.completed),
    ("completes_stage", Json.bool p.completes_stage),
    ("required_roles", Json.arr (p.required_roles.map Json.str)),
    ("hint_active", Json.bool p.hint_active)] ++
    (match p.locks with
     | some n => [("locks", Json.int n)]
     | none => []) ++
    (match p.data_solution with
     | some v => [("data", Json.obj [("solution", Json.int v)])]
     | none => [("data", Json.obj [])]))

/-- Parse a list of JSON strings. -/
def strListOf : List Json → Option (List String)
  | [] => some []
  | Json.str s :: rest => (strListOf rest).map (fun l => s :: l)
  | _ => none

/-- Parse a string list. -/
def jStrList : Json → Option (List String)
  | Json.arr xs => strListOf xs
  | _ => none

/-- Parse a puzzle entry back (puzzles are a plain dict to pydantic, so
this mirrors reading the same keys the generators write). -/
def puzzleOfJson : Json → Option Puzzle
  | Json.obj fields => do
    let kind ← jStr fields "type"
    let req ← match alookup fields "required_roles" with
      | some j => jStrList j
      | none => some []
    pure {
      kind := kind, difficulty := jIntD fields "difficulty" 0,
      completed := jBoolD fields "completed" false,
      completes_stage := jBoolD fields "completes_stage" false,
      required_roles := req,
      hint_active := jBoolD fields "hint_active" false,
      locks := (match alookup fields "locks" with
        | some (Json.int n) => some n
        | _ => none),
      data_solution := (match alookup fields "data" with
        | some (Json.obj d) => (match alookup d "solution" with
          | some (Json.int v) => some v
          | _ => none)
        | _ => none) }
  | _ => none

/-- Encode a keyed mapping as a JSON object. -/
def mapToJson {α : Type} (f : α → Json) (l : List (String × α)) : Json :=
  Json.obj (l.map (fun p => (p.1, f p.2)))

/-- Decode the fields of a keyed mapping. -/
def mapFieldsOf {α : Type} (f : Json → Option α) :
    List (String × Json) → Option (List (String × α))
  | [] => some []
  | (k, j) :: rest => do
    let v ← f j
    let vs ← mapFieldsOf f rest
    pure ((k, v) :: vs)

/-- Decode a keyed mapping from a JSON object. -/
def mapOfJson {α : Type} (f : Json → Option α) : Json →
    Option (List (String × α))
  | Json.obj fields => mapFieldsOf f fields
  | _ => none

/-- One stage's completion set: player id to boolean. -/
def completionToJson (m : List (String × Bool)) : Json :=
  Json.obj (m.map (fun p => (p.1, Json.bool p.2)))

def completionFieldsOf : List (String × Json) → Option (List (String × Bool))
  | [] => some []
  | (k, Json.bool b) :: rest =>
    (completionFieldsOf rest).map (fun l => (k, b) :: l)
  | _ => none

def completionOfJson : Json → Option (List (String × Bool))
  | Json.obj fields => completionFieldsOf fields
  | _ => none

/-- pydantic GameRoom.dict() in field-declaration order; the dynamic
extra attributes are appended when present, matching Extra.allow
serialization. -/
def roomToJson (r : GameRoom) : Json :=
  Json.obj ([("code", Json.str r.code),
    ("players", mapToJson playerToJson r.players),
    ("stage", Json.int r.stage),
    ("alert_level", Json.int r.alert_level),
    ("timer", Json.int r.timer),
    ("status", Json.str r.status),
    ("puzzles", mapToJson puzzleToJson r.puzzles),
    ("stage_completion", mapToJson completionToJson r.stage_completion),
    ("next_events_visible", Json.bool r.next_events_visible),
    ("last_power_description",
      match r.last_power_description with
      | some s => Json.str s
      | none => Json.null),
    ("timer_vote_active", Json.bool r.timer_vote_active),
    ("timer_votes", Json.obj [("yes", Json.arr (r.timer_votes_yes.map Json.str)),
      ("no", Json.arr (r.timer_votes_no.map Json.str))]),
    ("timer_vote_initiator",
      match r.timer_vote_initiator with
      | some s => Json.str s
      | none => Json.null),
    ("timer_vote_time_limit", Json.int r.timer_vote_time_limit),
    ("shortcuts", Json.int r.shortcuts)] ++
    (match r.original_alert_level with
     | some n => [("original_alert_level", Json.int n)]
     | none => []))

/-- pydantic GameRoom(**data): code is required, everything else takes
the model default when absent; unknown keys (such as last_activity) are
ignored. -/
def roomOfJson : Json → Option GameRoom
  | Json.obj fields => do
    let code ← jStr fields "code"
    let players ← match alookup fields "players" with
      | some j => mapOfJson playerOfJson j
      | none => some []
    let puzzles ← match alookup fields "puzzles" with
      | some j => mapOfJson puzzleOfJson j
      | none => some []
    let sc ← match alookup fields "stage_completion" with
      | some j => mapOfJson completionOfJson j
      | none => some []
    let yes ← match alookup fields "timer_votes" with
      | some (Json.obj tv) => (match alookup tv "yes" with
          | some j => jStrList j
          | none => some [])
      | _ => some []
    let no ← match alookup fields "timer_votes" with
      | some (Json.obj tv) => (match alookup tv "no" with
          | some j => jStrList j
          | none => some [])
      | _ => some []
    pure {
      code := code, players := players,
      stage := jIntD fields "stage" 0,
      alert_level := jIntD fields "alert_level" 0,
      timer := jIntD fields "timer" 300,
      status := (jStr fields "status").getD "waiting",
      puzzles := puzzles, stage_completion := sc,
      next_events_visible := jBoolD fields "next_events_visible" false,
      last_power_description := jStr fields "last_power_description",
      timer_vote_active := jBoolD fields "timer_vote_active" false,
      timer_votes_yes := yes, timer_votes_no := no,
      timer_vote_initiator := jStr fields "timer_vote_initiator",
      timer_vote_time_limit := jIntD fields "timer_vote_time_limit" 20,
      original_alert_level := (match alookup fields "original_alert_level" with
        | some (Json.int n) => some n
        | _ => none),
      shortcuts := jIntD fields "shortcuts" 0 }
  | _ => none

/-- redis_client.store_room_data (lines 71 to 96): stamp last_activity
into the record, then store its serialization under the room key. -/
def store_room_data (roomJson : Json) (now : Int) : Json :=
  match roomJson with
  | Json.obj fields => Json.obj (aset fields "last_activity" (Json.int now))
  | j => j

/-- redis_client.get_room_data (lines 98 to 120) on a present key:
deserialize the stored value (TTL refresh has no effect on the data). -/
def get_room_data (stored : Json) : Json := stored

/-- Entry of a stored JSON object, for comparing persisted records. -/
def jGet (j : Json) (k : String) : Option Json :=
  match j with
  | Json.obj fields => alookup fields k
  | _ => none

/-! Concrete fixtures used by the closed witness and counterexample
theorems below. -/

/-- A player record fixture. -/
def mkP (pid name role : String) (conn host : Bool) : Player :=
  { id := pid, name := name, role := role, room_code := "R",
    connected := conn, is_host := host }

/-- An empty waiting room fixture with the model defaults. -/
def baseRoom : GameRoom :=
  { code := "R", players := [], stage := 0, alert_level := 0, timer := 300,
    status := "waiting", puzzles := [], stage_completion := [],
    next_events_visible := false, last_power_description := none,
    timer_vote_active := false, timer_votes_yes := [], timer_votes_no := [],
    timer_vote_initiator := none, timer_vote_time_limit := 20,
    original_alert_level := none, shortcuts := 0 }

/-- Five connected players with an active timer-extension vote. -/
def voteRoom (yes no : List String) : GameRoom :=
  { baseRoom with
    status := "in_progress", timer := 100, alert_level := 1,
    players := [("p1", mkP "p1" "A" "Hacker" true true),
      ("p2", mkP "p2" "B" "Safe Cracker" true false),
      ("p3", mkP "p3" "C" "Demolitions" true false),
      ("p4", mkP "p4" "D" "Lookout" true false),
      ("p5", mkP "p5" "E" "" true false)],
    timer_vote_active := true, timer_votes_yes := yes, timer_votes_no := no }

/-- An in-progress two-player room at stage 1 with no puzzle solved. -/
def unsolvedRoom : GameRoom :=
  { baseRoom with
    status := "in_progress", stage := 1,
    players := [("h", mkP "h" "H" "Hacker" true true),
      ("p2", mkP "p2" "B" "Safe Cracker" true false)],
    puzzles := [("h", freshPuzzle "circuit" 1),
      ("p2", freshPuzzle "lock_combination" 1)],
    stage_completion := [("1", [])] }

/-- A one-player waiting room whose host already picked a role. -/
def soloRoom : GameRoom :=
  { baseRoom with players := [("h", mkP "h" "H" "Hacker" true true)] }

/-- An in-progress three-player room (for the disconnect scenario). -/
def threeRoom : GameRoom :=
  { baseRoom with
    status := "in_progress", stage := 1,
    players := [("p1", mkP "p1" "A" "Hacker" true true),
      ("p2", mkP "p2" "B" "Safe Cracker" true false),
      ("p3", mkP "p3" "C" "Demolitions" true false)] }

/-- A waiting two-player room ready to start. -/
def twoRoom : GameRoom :=
  { baseRoom with
    players := [("h", mkP "h" "H" "Hacker" true true),
      ("p2", mkP "p2" "B" "Safe Cracker" true false)] }

/-- A waiting room with one role holder and one unassigned player. -/
def pairRoom : GameRoom :=
  { baseRoom with
    players := [("p1", mkP "p1" "A" "Hacker" true true),
      ("p2", mkP "p2" "B" "" true false)] }

/-- An in-progress room with alert level 3 and a Demolitions player. -/
def demoRoom : GameRoom :=
  { baseRoom with
    status := "in_progress", alert_level := 3,
    players := [("d", mkP "d" "D" "Demolitions" true false)] }

/-- An in-progress room whose countdown stands at 5 seconds. -/
def timerRoom : GameRoom :=
  { baseRoom with
    status := "in_progress", timer := 5,
    players := [("p1", mkP "p1" "A" "Hacker" true true),
      ("p2", mkP "p2" "B" "Safe Cracker" true false)] }

/-- generate_puzzles reads only the roster of the room it is given. -/
theorem generate_puzzles_players_eq (r1 r2 : GameRoom) (stage : Int)
    (roll : Bool) (choice : Nat) (h : r1.players = r2.players) :
    generate_puzzles r1 stage roll choice = generate_puzzles r2 stage roll choice := by
  simp only [generate_puzzles, h]

/-- C4: with no alert reduction pending, the Demolitions power adds 20
seconds, increments the shortcut counter, snapshots the current alert
level, lowers the alert level by 2 floored at 0, and schedules a 45
second restoration of the snapshot; a second invocation while the first
is pending neither overwrites the snapshot nor schedules another
restoration, and the restoration task puts the snapshot back. -/
theorem claim4_demolitions_power (room : GameRoom) (pid : String)
    (hpending : room.original_alert_level = none) :
    (handle_power_usage room pid "Demolitions").1.timer = room.timer + 20 ∧
    (handle_power_usage room pid "Demolitions").1.shortcuts = room.shortcuts + 1 ∧
    (handle_power_usage room pid "Demolitions").1.original_alert_level =
      some room.alert_level ∧
    (handle_power_usage room pid "Demolitions").1.alert_level =
      max 0 (room.alert_level - 2) ∧
    (handle_power_usage room pid "Demolitions").2.2 =
      [Effect.schedule_restore_alert 45] ∧
    (handle_power_usage (handle_power_usage room pid "Demolitions").1 pid
        "Demolitions").1.original_alert_level = some room.alert_level ∧
    (handle_power_usage (handle_power_usage room pid "Demolitions").1 pid
        "Demolitions").2.2 = [] ∧
    (restore_alert_level (handle_power_usage room pid "Demolitions").1).1.alert_level =
      room.alert_level ∧
    (restore_alert_level (handle_power_usage room pid "Demolitions").1).1.original_alert_level =
      none := by
  simp [handle_power_usage, restore_alert_level, hpending]

/-- C4 witness at the concrete Demolitions fixture. -/
theorem claim4_demolitions_power_witness :
    demoRoom.original_alert_level = none ∧
    ((handle_power_usage demoRoom "d" "Demolitions").1.timer = demoRoom.timer + 20 ∧
     (handle_power_usage demoRoom "d" "Demolitions").1.shortcuts = demoRoom.shortcuts + 1 ∧
     (handle_power_usage demoRoom "d" "Demolitions").1.original_alert_level =
       some demoRoom.alert_level ∧
     (handle_power_usage demoRoom "d" "Demolitions").1.alert_level =
       max 0 (demoRoom.alert_level - 2) ∧
     (handle_power_usage demoRoom "d" "Demolitions").2.2 =
       [Effect.schedule_restore_alert 45] ∧
     (handle_power_usage (handle_power_usage demoRoom "d" "Demolitions").1 "d"
         "Demolitions").1.original_alert_level = some demoRoom.alert_level ∧
     (handle_power_usage (handle_power_usage demoRoom "d" "Demolitions").1 "d"
         "Demolitions").2.2 = [] ∧
     (restore_alert_level (handle_power_usage demoRoom "d" "Demolitions").1).1.alert_level =
       demoRoom.alert_level ∧
     (restore_alert_level (handle_power_usage demoRoom "d" "Demolitions").1).1.original_alert_level =
       none) :=
  ⟨rfl, claim4_demolitions_power demoRoom "d" rfl⟩

/-- C5 (amended): starting succeeds exactly when the requester is the
host, the room is waiting, the roster has at least 2 players (the active
minimum in src) and every player has a role; on success the game state is
initialized and the timer task spawned; on failure a single typed
game_start error goes to the requester only and the room is unchanged. -/
theorem claim5_start_game (room : GameRoom) (pid : String) (roll : Bool)
    (choice : Nat) (conns : List String) :
    ((start_game_ws room pid roll choice conns).toSender = [] ↔
      (playerIsHost room pid = true ∧ room.status = "waiting" ∧
        2 ≤ room.players.length ∧ playersWithoutRoles room = [])) ∧
    (playerIsHost room pid = true → room.status = "waiting" →
      2 ≤ room.players.length → playersWithoutRoles room = [] →
      ((start_game_ws room pid roll choice conns).room.stage = 1 ∧
       (start_game_ws room pid roll choice conns).room.alert_level = 0 ∧
       (start_game_ws room pid roll choice conns).room.timer = 300 ∧
       (start_game_ws room pid roll choice conns).room.status = "in_progress" ∧
       (start_game_ws room pid roll choice conns).room.stage_completion = [("1", [])] ∧
       (start_game_ws room pid roll choice conns).room.puzzles =
         generate_puzzles room 1 roll choice ∧
       (start_game_ws room pid roll choice conns).effects = [Effect.spawn_game_timer] ∧
       (start_game_ws room pid roll choice conns).broadcasts = [Msg.game_started 1 300])) ∧
    (¬ (playerIsHost room pid = true ∧ room.status = "waiting" ∧
        2 ≤ room.players.length ∧ playersWithoutRoles room = []) →
      ((start_game_ws room pid roll choice conns).room = room ∧
       (start_game_ws room pid roll choice conns).broadcasts = [] ∧
       (start_game_ws room pid roll choice conns).effects = [] ∧
       ((start_game_ws room pid roll choice conns).toSender =
          [Msg.error "game_start" "Only the host can start the game"] ∨
        (start_game_ws room pid roll choice conns).toSender =
          [Msg.error "game_start" "Game is already in progress"] ∨
        (start_game_ws room pid roll choice conns).toSender =
          [Msg.error "game_start" "At least 2 players are required to start the game"] ∨
        (start_game_ws room pid roll choice conns).toSender =
          [Msg.error "game_start" "Not all players have selected roles"]))) := by
  unfold start_game_ws
  by_cases h1 : playerIsHost room pid = true
  · by_cases h2 : room.status = "waiting"
    · by_cases h3 : 2 ≤ room.players.length
      · by_cases h4 : playersWithoutRoles room = []
        · simp [errReply, h1, h2, h3, h4, Nat.not_lt.mpr h3]
          exact generate_puzzles_players_eq _ _ _ _ _ rfl
        · simp [errReply, h1, h2, h4, Nat.not_lt.mpr h3]
      · simp [errReply, h1, h2, Nat.lt_of_not_le h3]
    · simp [errReply, h1, h2]
  · simp [errReply, h1]

/-- C5 counterexample: a waiting one-player room whose host has a role
meets every condition of the claim as stated (host, waiting, all roles
assigned), yet the start is rejected with the 2-player-minimum error and
the room is unchanged: the player-count floor is enforced in src, not
disabled. -/
theorem claim5_counterexample :
    playerIsHost soloRoom "h" = true ∧ soloRoom.status = "waiting" ∧
    playersWithoutRoles soloRoom = [] ∧
    (start_game_ws soloRoom "h" false 0 []).toSender =
      [Msg.error "game_start" "At least 2 players are required to start the game"] ∧
    (start_game_ws soloRoom "h" false 0 []).room = soloRoom ∧
    (start_game_ws soloRoom "h" false 0 []).effects = [] := by
  decide

/-- C5 witness: the full two-player start succeeds with the initialized
state. -/
theorem claim5_start_game_witness :
    ((start_game_ws twoRoom "h" false 0 []).toSender = [] ↔
      (playerIsHost twoRoom "h" = true ∧ twoRoom.status = "waiting" ∧
        2 ≤ twoRoom.players.length ∧ playersWithoutRoles twoRoom = [])) ∧
    (start_game_ws twoRoom "h" false 0 []).room.status = "in_progress" ∧
    (start_game_ws twoRoom "h" false 0 []).room.stage = 1 ∧
    (start_game_ws twoRoom "h" false 0 []).effects = [Effect.spawn_game_timer] :=
  ⟨(claim5_start_game twoRoom "h" false 0 []).1,
   ((claim5_start_game twoRoom "h" false 0 []).2.1 rfl rfl (by decide) rfl).2.2.2.1,
   ((claim5_start_game twoRoom "h" false 0 []).2.1 rfl rfl (by decide) rfl).1,
   ((claim5_start_game twoRoom "h" false 0 []).2.1 rfl rfl (by decide) rfl).2.2.2.2.2.2.1⟩

/-- The connected-player count is bounded by the length of any list that
contains every connected player's id, since roster keys are distinct. -/
theorem connected_le_voters (room : GameRoom) (extra : List String)
    (hkeys : (room.players.map Prod.fst).Nodup)
    (hall : ∀ q ∈ room.players, q.2.connected = true → q.1 ∈ extra) :
    connectedCount room ≤ extra.length := by
  have hsub : ((room.players.filter (fun p => p.2.connected)).map Prod.fst) ⊆ extra := by
    intro x hx
    rcases List.mem_map.mp hx with ⟨q, hq, rfl⟩
    have hq2 := List.mem_filter.mp hq
    exact hall q hq2.1 (by simpa using hq2.2)
  have hnd : ((room.players.filter (fun p => p.2.connected)).map Prod.fst).Nodup :=
    List.Nodup.sublist
      (List.Sublist.map Prod.fst (List.filter_sublist room.players)) hkeys
  have hle := (List.subperm_of_subset hnd hsub).length_le
  simpa [connectedCount] using hle

/-- C2: resolving a timer-extension vote computes
required = max(1, connected // 2 + 1) and succeeds iff yes-votes reach
it; success adds exactly 60 seconds and one alert level; the detailed
outcome (yes and no counts and the connected denominator) is broadcast
in both cases and the vote state (active flag and both vote lists) is
cleared in both cases.  A ballot completing the connected-player set
resolves immediately.  Concretely with 5 connected players required is
3: 2 yes and 1 no fails with the state untouched, 3 yes succeeds with
timer plus 60 and alert plus 1. -/
theorem claim2_timer_vote_resolution :
    (∀ room : GameRoom,
      (process_timer_vote_result room).room.timer =
        (if max 1 (connectedCount room / 2 + 1) ≤ room.timer_votes_yes.length
         then room.timer + 60 else room.timer) ∧
      (process_timer_vote_result room).room.alert_level =
        (if max 1 (connectedCount room / 2 + 1) ≤ room.timer_votes_yes.length
         then room.alert_level + 1 else room.alert_level) ∧
      (process_timer_vote_result room).room.timer_vote_active = false ∧
      (process_timer_vote_result room).room.timer_votes_yes = [] ∧
      (process_timer_vote_result room).room.timer_votes_no = [] ∧
      Msg.timer_vote_completed
          (decide (max 1 (connectedCount room / 2 + 1) ≤ room.timer_votes_yes.length))
          (room.timer_votes_yes ++ room.timer_votes_no)
          (max 1 (connectedCount room / 2 + 1))
          room.timer_votes_yes.length room.timer_votes_no.length
          (connectedCount room) ∈
        (process_timer_vote_result room).broadcasts) ∧
    (∀ (room : GameRoom) (pid : String) (v : Bool),
      room.timer_vote_active = true →
      pid ∉ room.timer_votes_yes →
      pid ∉ room.timer_votes_no →
      (room.players.map Prod.fst).Nodup →
      (∀ q ∈ room.players, q.2.connected = true →
        q.1 ∈ room.timer_votes_yes ++ room.timer_votes_no ++ [pid]) →
      (extend_timer_vote room pid v).effects = [Effect.process_vote_result]) ∧
    connectedCount (voteRoom ["p1", "p2"] ["p3"]) = 5 ∧
    max 1 (connectedCount (voteRoom ["p1", "p2"] ["p3"]) / 2 + 1) = 3 ∧
    (process_timer_vote_result (voteRoom ["p1", "p2"] ["p3"])).broadcasts =
      [Msg.timer_vote_completed false ["p1", "p2", "p3"] 3 2 1 5] ∧
    (process_timer_vote_result (voteRoom ["p1", "p2"] ["p3"])).room.timer =
      (voteRoom ["p1", "p2"] ["p3"]).timer ∧
    (process_timer_vote_result (voteRoom ["p1", "p2"] ["p3"])).room.alert_level =
      (voteRoom ["p1", "p2"] ["p3"]).alert_level ∧
    (process_timer_vote_result (voteRoom ["p1", "p2", "p3"] [])).room.timer =
      (voteRoom ["p1", "p2", "p3"] []).timer + 60 ∧
    (process_timer_vote_result (voteRoom ["p1", "p2", "p3"] [])).room.alert_level =
      (voteRoom ["p1", "p2", "p3"] []).alert_level + 1 ∧
    (process_timer_vote_result (voteRoom ["p1", "p2", "p3"] [])).broadcasts =
      [Msg.timer_extended 160 2,
       Msg.timer_vote_completed true ["p1", "p2", "p3"] 3 3 0 5] := by
  refine ⟨?_, ?_, by decide, by decide, by decide, by decide, by decide,
    by decide, by decide, by decide⟩
  · intro room
    unfold process_timer_vote_result
    by_cases hs : max 1 (connectedCount room / 2 + 1) ≤ room.timer_votes_yes.length
    · simp [connectedCount] at hs
      simp [connectedCount, hs]
    · simp [connectedCount] at hs
      simp [connectedCount, hs, Nat.not_le.mpr hs]
  · intro room pid v hactive hny hnn hkeys hall
    have hcc : connectedCount room ≤
        room.timer_votes_yes.length + room.timer_votes_no.length + 1 := by
      have hlen := connected_le_voters room
        (room.timer_votes_yes ++ room.timer_votes_no ++ [pid]) hkeys hall
      simpa using hlen
    unfold extend_timer_vote
    simp [connectedCount] at hcc
    cases v <;> simp [hactive, hny, hnn, connectedCount] <;> omega

/-- C2 witness: a fifth ballot completing the connected set triggers
immediate resolution. -/
theorem claim2_timer_vote_resolution_witness :
    (voteRoom ["p1", "p2", "p3", "p4"] []).timer_vote_active = true ∧
    (extend_timer_vote (voteRoom ["p1", "p2", "p3", "p4"] []) "p5" true).effects =
      [Effect.process_vote_result] :=
  ⟨rfl, (claim2_timer_vote_resolution).2.1 (voteRoom ["p1", "p2", "p3", "p4"] [])
    "p5" true rfl (by decide) (by decide) (by decide) (by decide)⟩

/-- Any timer_update emitted by a countdown iteration carries the
just-decremented value, which is never negative (the loop exits before
decrementing a non-positive timer). -/
theorem timer_tick_msgs_nonneg (room : GameRoom) (t : Int) (s : Bool)
    (h : Msg.timer_update t s ∈ (timer_tick room).msgs) : 0 ≤ t := by
  simp only [timer_tick] at h
  split at h
  · simp [TickResult.msgs] at h
  · rename_i h0
    push_neg at h0
    split at h <;> split at h <;> simp_all [TickResult.msgs] <;> omega

/-- An in-progress iteration with time remaining decrements the timer by
exactly one. -/
theorem timer_tick_step_timer (room : GameRoom)
    (hs : room.status = "in_progress") (ht : 0 < room.timer) :
    (timer_tick room).room.timer = room.timer - 1 := by
  simp only [timer_tick]
  rw [if_neg (by simp [hs]; omega)]
  split <;> simp [TickResult.room]

/-- The iteration that exhausts the timer fails the game and broadcasts
the time-expired game over. -/
theorem timer_tick_expire (room : GameRoom)
    (hs : room.status = "in_progress") (ht : room.timer = 1) :
    (timer_tick room).room.status = "failed" ∧
    Msg.game_over "time_expired" none [] ∈ (timer_tick room).msgs := by
  simp only [timer_tick]
  rw [if_neg (by simp [hs]; omega)]
  rw [if_pos (by simp [ht])]
  simp [TickResult.room, TickResult.msgs]

/-- Every timer_update accumulated by the countdown loop is nonnegative
provided the initial accumulator only holds nonnegative values. -/
theorem run_timer_loop_nonneg : ∀ (fuel : Nat) (room : GameRoom)
    (acc : List Msg),
    (∀ t s, Msg.timer_update t s ∈ acc → 0 ≤ t) →
    ∀ t s, Msg.timer_update t s ∈ (run_timer_loop fuel room acc).2 → 0 ≤ t := by
  intro fuel
  induction fuel with
  | zero =>
    intro room acc hacc t s hmem
    exact hacc t s (by simpa [run_timer_loop] using hmem)
  | succ n ih =>
    intro room acc hacc t s hmem
    unfold run_timer_loop at hmem
    cases htick : timer_tick room with
    | halt r m e =>
      rw [htick] at hmem
      simp only [List.mem_append] at hmem
      rcases hmem with hmem | hmem
      · exact hacc t s hmem
      · exact timer_tick_msgs_nonneg room t s
          (by rw [htick]; simpa [TickResult.msgs] using hmem)
    | step r m e =>
      rw [htick] at hmem
      refine ih r (acc ++ m) ?_ t s hmem
      intro t1 s1 hm
      rcases List.mem_append.mp hm with hm | hm
      · exact hacc t1 s1 hm
      · exact timer_tick_msgs_nonneg room t1 s1
          (by rw [htick]; simpa [TickResult.msgs] using hm)

/-- C3: while a room is in progress with time remaining the countdown
loop decrements the timer by exactly 1 per one-second iteration; the
iteration that exhausts it sets the status to failed and broadcasts the
game_over with result time_expired; broadcast timer values never go
below 0 when the loaded timer starts nonnegative; and a room entered
with timer 5 ends failed after its 5 iterations with exactly the
expected update sequence and final game_over. -/
theorem claim3_countdown_timeout :
    (∀ room : GameRoom, room.status = "in_progress" → 0 < room.timer →
      (timer_tick room).room.timer = room.timer - 1) ∧
    (∀ room : GameRoom, room.status = "in_progress" → room.timer = 1 →
      (timer_tick room).room.status = "failed" ∧
      Msg.game_over "time_expired" none [] ∈ (timer_tick room).msgs) ∧
    (∀ (fuel : Nat) (room : GameRoom) (t : Int) (s : Bool), 0 ≤ room.timer →
      Msg.timer_update t s ∈ (run_game_timer fuel room).2 → 0 ≤ t) ∧
    (run_game_timer 5 timerRoom).1.status = "failed" ∧
    (run_game_timer 5 timerRoom).1.timer = 0 ∧
    (run_game_timer 5 timerRoom).2 =
      [Msg.timer_update 5 true, Msg.timer_update 4 true,
       Msg.timer_update 3 true, Msg.timer_update 2 true,
       Msg.timer_update 1 true, Msg.timer_update 0 true,
       Msg.game_over "time_expired" none []] := by
  refine ⟨timer_tick_step_timer, timer_tick_expire, ?_, by decide, by decide,
    by decide⟩
  intro fuel room t s h0 hmem
  refine run_timer_loop_nonneg fuel room [Msg.timer_update room.timer true]
    ?_ t s hmem
  intro t1 s1 hm
  simp at hm
  omega

/-- C3 witness at the concrete 5-second room. -/
theorem claim3_countdown_timeout_witness :
    timerRoom.status = "in_progress" ∧ timerRoom.timer = 5 ∧
    (timer_tick timerRoom).room.timer = timerRoom.timer - 1 ∧
    (0 : Int) ≤ timerRoom.timer ∧
    ((0 : Int) ≤ 5) :=
  ⟨rfl, rfl, (claim3_countdown_timeout).1 timerRoom rfl (by decide), by decide,
    (claim3_countdown_timeout).2.2.1 5 timerRoom 5 true (by decide)
      (by decide)⟩

/-- Updating a key makes it look up to the new value. -/
theorem alookup_aset_self {α : Type} (ps : List (String × α)) (k : String)
    (v : α) : alookup (aset ps k v) k = some v := by
  induction ps with
  | nil => simp [aset, alookup]
  | cons hd tl ih =>
    by_cases h : hd.1 = k
    · simp [aset, alookup, h]
    · simp [aset, alookup, h, ih]

/-- Updating a present key keeps the length. -/
theorem aset_length_of_lookup {α : Type} (ps : List (String × α))
    (k : String) (v w : α) (h : alookup ps k = some w) :
    (aset ps k v).length = ps.length := by
  induction ps with
  | nil => simp [alookup] at h
  | cons hd tl ih =>
    by_cases hk : hd.1 = k
    · simp [aset, hk]
    · simp [alookup, hk] at h
      simp [aset, hk, ih h]

/-- Rewriting a key to the value it already has is the identity. -/
theorem aset_id {α : Type} (ps : List (String × α)) (k : String) (v : α)
    (h : alookup ps k = some v) : aset ps k v = ps := by
  induction ps with
  | nil => simp [alookup] at h
  | cons hd tl ih =>
    by_cases hk : hd.1 = k
    · simp [alookup, hk] at h
      simp [aset, hk, h.symm]
      exact hk.symm ▸ rfl
    · simp [alookup, hk] at h
      simp [aset, hk, ih h]

/-- Looked-up entries are members of the list. -/
theorem alookup_mem {α : Type} (ps : List (String × α)) (k : String)
    (v : α) (h : alookup ps k = some v) : (k, v) ∈ ps := by
  induction ps with
  | nil => simp [alookup] at h
  | cons hd tl ih =>
    by_cases hk : hd.1 = k
    · obtain ⟨a, b⟩ := hd
      simp at hk
      subst hk
      simp [alookup] at h
      subst h
      exact List.mem_cons_self _ _
    · simp [alookup, hk] at h
      exact List.mem_cons_of_mem hd (ih h)

/-- Marking a player disconnected changes neither the status nor the
roster size, and the player's record survives with the flag cleared. -/
theorem markDisconnected_status (room : GameRoom) (pid : String) :
    (markDisconnected room pid).status = room.status := by
  unfold markDisconnected
  split <;> rfl

/-- The result room of handle_player_disconnect is exactly the marked
room, failed when the insufficient-players check fires. -/
theorem handle_player_disconnect_room (room : GameRoom) (pid : String) :
    (handle_player_disconnect room pid).room =
      (if (markDisconnected room pid).status = "in_progress" ∧
          connectedCount (markDisconnected room pid) < 2
       then { markDisconnected room pid with status := "failed" }
       else markDisconnected room pid) := by
  simp only [handle_player_disconnect]
  split <;> split <;> simp_all

/-- The broadcasts of handle_player_disconnect. -/
theorem handle_player_disconnect_broadcasts (room : GameRoom) (pid : String) :
    (handle_player_disconnect room pid).broadcasts =
      (if (markDisconnected room pid).status = "in_progress" ∧
          connectedCount (markDisconnected room pid) < 2
       then [Msg.player_disconnected pid,
         Msg.game_over "insufficient_players"
           (some (connectedCount (markDisconnected room pid)))
           (connectedNames (markDisconnected room pid))]
       else [Msg.player_disconnected pid]) := by
  simp only [handle_player_disconnect]
  split <;> split <;> simp_all

/-- C7: a disconnect keeps the player's record (marked disconnected) and
the roster size; when the room is in progress and the remaining
connected count drops below 2 the room fails and the game_over broadcast
carries exactly that connected count, otherwise the status is untouched.
In the concrete 3-player room, the first disconnect leaves the game
running and the second fails it with connected_count 1, the roster still
holding all 3 records. -/
theorem claim7_disconnect_insufficient_players :
    (∀ (room : GameRoom) (pid : String) (p : Player),
      alookup room.players pid = some p →
      alookup (handle_player_disconnect room pid).room.players pid =
        some { p with connected := false } ∧
      (handle_player_disconnect room pid).room.players.length =
        room.players.length) ∧
    (∀ (room : GameRoom) (pid : String),
      room.status = "in_progress" →
      connectedCount (markDisconnected room pid) < 2 →
      (handle_player_disconnect room pid).room.status = "failed" ∧
      Msg.game_over "insufficient_players"
          (some (connectedCount (markDisconnected room pid)))
          (connectedNames (markDisconnected room pid)) ∈
        (handle_player_disconnect room pid).broadcasts) ∧
    (∀ (room : GameRoom) (pid : String),
      2 ≤ connectedCount (markDisconnected room pid) →
      (handle_player_disconnect room pid).room.status = room.status) ∧
    (handle_player_disconnect threeRoom "p3").room.status = "in_progress" ∧
    (handle_player_disconnect
        (handle_player_disconnect threeRoom "p3").room "p2").room.status =
      "failed" ∧
    (handle_player_disconnect
        (handle_player_disconnect threeRoom "p3").room "p2").broadcasts =
      [Msg.player_disconnected "p2",
       Msg.game_over "insufficient_players" (some 1) ["A"]] ∧
    (handle_player_disconnect
        (handle_player_disconnect threeRoom "p3").room "p2").room.players.length =
      3 := by
  refine ⟨?_, ?_, ?_, by decide, by decide, by decide, by decide⟩
  · intro room pid p hp
    rw [handle_player_disconnect_room]
    have hps : (markDisconnected room pid).players =
        aset room.players pid { p with connected := false } := by
      unfold markDisconnected
      rw [hp]
    constructor
    · split <;> simp [hps, alookup_aset_self]
    · split <;> simp [hps, aset_length_of_lookup room.players pid _ p hp]
  · intro room pid hs hcc
    have hcond : (markDisconnected room pid).status = "in_progress" ∧
        connectedCount (markDisconnected room pid) < 2 := by
      rw [markDisconnected_status]
      exact ⟨hs, hcc⟩
    rw [handle_player_disconnect_room, handle_player_disconnect_broadcasts,
      if_pos hcond, if_pos hcond]
    simp
  · intro room pid hcc
    rw [handle_player_disconnect_room,
      if_neg (by rw [markDisconnected_status]; omega), markDisconnected_status]

/-- C7 witness at the first concrete disconnect. -/
theorem claim7_disconnect_insufficient_players_witness :
    alookup threeRoom.players "p3" = some (mkP "p3" "C" "Demolitions" true false) ∧
    alookup (handle_player_disconnect threeRoom "p3").room.players "p3" =
      some { mkP "p3" "C" "Demolitions" true false with connected := false } ∧
    (handle_player_disconnect threeRoom "p3").room.players.length =
      threeRoom.players.length :=
  ⟨by decide,
   ((claim7_disconnect_insufficient_players).1 threeRoom "p3"
     (mkP "p3" "C" "Demolitions" true false) (by decide)).1,
   ((claim7_disconnect_insufficient_players).1 threeRoom "p3"
     (mkP "p3" "C" "Demolitions" true false) (by decide)).2⟩

/-- Erasing a key yields a sublist. -/
theorem aerase_sublist {α : Type} (ps : List (String × α)) (k : String) :
    List.Sublist (aerase ps k) ps := by
  induction ps with
  | nil => simp [aerase]
  | cons hd tl ih =>
    by_cases h : hd.1 = k
    · simp [aerase, h]
    · simp only [aerase, if_neg h]
      exact List.Sublist.cons₂ hd ih

/-- Erasing one key leaves the other keys' lookups unchanged. -/
theorem alookup_aerase_ne {α : Type} (ps : List (String × α)) (k q : String)
    (h : q ≠ k) : alookup (aerase ps k) q = alookup ps q := by
  induction ps with
  | nil => simp [aerase]
  | cons hd tl ih =>
    by_cases hk : hd.1 = k
    · have hq : ¬ hd.1 = q := by rw [hk]; exact fun e => h e.symm
      rw [show aerase (hd :: tl) k = tl by simp [aerase, hk]]
      rw [show alookup (hd :: tl) q = alookup tl q by simp [alookup, hq]]
    · by_cases hq : hd.1 = q
      · simp [aerase, alookup, hk, hq, h]
      · simp [aerase, alookup, hk, hq, h, ih]

/-- A key absent from the key list looks up to none. -/
theorem alookup_eq_none_of_not_mem {α : Type} (ps : List (String × α))
    (k : String) (h : k ∉ ps.map Prod.fst) : alookup ps k = none := by
  induction ps with
  | nil => simp [alookup]
  | cons hd tl ih =>
    simp only [List.map_cons, List.mem_cons] at h
    push_neg at h
    have hk : ¬ hd.1 = k := fun e => h.1 e.symm
    simp [alookup, hk]
    exact ih h.2

/-- With distinct keys, erasing a key removes its only binding. -/
theorem alookup_aerase_self {α : Type} (ps : List (String × α)) (k : String)
    (hnd : (ps.map Prod.fst).Nodup) : alookup (aerase ps k) k = none := by
  induction ps with
  | nil => simp [aerase, alookup]
  | cons hd tl ih =>
    simp at hnd
    by_cases hk : hd.1 = k
    · simp [aerase, hk]
      exact alookup_eq_none_of_not_mem tl k (by
        intro hmem
        exact absurd (hk ▸ hmem) (by simpa using hnd.1))
    · simp [aerase, alookup, hk]
      exact ih hnd.2

/-- Erasing preserves distinctness of the keys. -/
theorem aerase_keys_nodup {α : Type} (ps : List (String × α)) (k : String)
    (hnd : (ps.map Prod.fst).Nodup) : ((aerase ps k).map Prod.fst).Nodup :=
  List.Nodup.sublist (List.Sublist.map Prod.fst (aerase_sublist ps k)) hnd

/-- Full functional specification of the broadcast fan-out: the returned
count is the number of non-excluded member ids whose live connection
delivers successfully, and the connection map afterwards lacks exactly
the non-excluded members whose delivery failed. -/
theorem broadcast_fanout_spec : ∀ (ids : List String)
    (conns : List (String × SendOutcome)) (exclude : Option String),
    ids.Nodup → (conns.map Prod.fst).Nodup →
    (broadcast_fanout ids conns exclude).1 =
      (ids.filter (fun pid => decide (¬ exclude = some pid) &&
        (alookup conns pid == some SendOutcome.ok))).length ∧
    (∀ q : String, alookup (broadcast_fanout ids conns exclude).2 q =
      if q ∈ ids ∧ ¬ exclude = some q ∧
          alookup conns q = some SendOutcome.fail
      then none else alookup conns q) := by
  intro ids
  induction ids with
  | nil =>
    intro conns exclude _ _
    refine ⟨by simp [broadcast_fanout], ?_⟩
    intro q
    simp [broadcast_fanout]
  | cons pid rest ih =>
    intro conns exclude hnd hck
    have hpr : pid ∉ rest := (List.nodup_cons.mp hnd).1
    have hndr : rest.Nodup := (List.nodup_cons.mp hnd).2
    by_cases hex : exclude = some pid
    · have spec := ih conns exclude hndr hck
      refine ⟨?_, ?_⟩
      · rw [show broadcast_fanout (pid :: rest) conns exclude =
            broadcast_fanout rest conns exclude by
            simp [broadcast_fanout, hex]]
        rw [spec.1]
        simp [hex]
      · intro q
        rw [show broadcast_fanout (pid :: rest) conns exclude =
            broadcast_fanout rest conns exclude by
            simp [broadcast_fanout, hex]]
        rw [spec.2 q]
        by_cases hq : q = pid
        · subst hq
          simp [hex, hpr]
        · simp [hq]
    · cases hc : alookup conns pid with
      | none =>
        have spec := ih conns exclude hndr hck
        have hstep : broadcast_fanout (pid :: rest) conns exclude =
            broadcast_fanout rest conns exclude := by
          simp [broadcast_fanout, hex, hc]
        refine ⟨?_, ?_⟩
        · rw [hstep, spec.1]
          simp [hex, hc]
        · intro q
          rw [hstep, spec.2 q]
          by_cases hq : q = pid
          · subst hq
            simp [hpr, hc]
          · simp [hq]
      | some oc =>
        cases oc with
        | ok =>
          have spec := ih conns exclude hndr hck
          have hstep : broadcast_fanout (pid :: rest) conns exclude =
              ((broadcast_fanout rest conns exclude).1 + 1,
               (broadcast_fanout rest conns exclude).2) := by
            simp [broadcast_fanout, hex, hc]
          refine ⟨?_, ?_⟩
          · rw [hstep]
            simp only [spec.1]
            simp [hex, hc]
          · intro q
            rw [hstep]
            simp only []
            rw [spec.2 q]
            by_cases hq : q = pid
            · subst hq
              simp [hpr, hc]
            · simp [hq]
        | fail =>
          have hck1 := aerase_keys_nodup conns pid hck
          have spec := ih (aerase conns pid) exclude hndr hck1
          have hstep : broadcast_fanout (pid :: rest) conns exclude =
              broadcast_fanout rest (aerase conns pid) exclude := by
            simp [broadcast_fanout, hex, hc]
          refine ⟨?_, ?_⟩
          · rw [hstep, spec.1]
            have hfc : ∀ x ∈ rest,
                (decide (¬ exclude = some x) &&
                  (alookup (aerase conns pid) x == some SendOutcome.ok)) =
                (decide (¬ exclude = some x) &&
                  (alookup conns x == some SendOutcome.ok)) := by
              intro x hx
              rw [alookup_aerase_ne conns pid x (fun e => hpr (e ▸ hx))]
            rw [List.filter_congr hfc]
            simp [hex, hc]
          · intro q
            rw [hstep, spec.2 q]
            by_cases hq : q = pid
            · subst hq
              simp [hpr, hex, hc, alookup_aerase_self conns q hck]
            · rw [alookup_aerase_ne conns pid q hq]
              simp [hq]

/-- C8 (amended): with a non-empty resolved member list the broadcast
returns the count of successful deliveries, attempts every non-excluded
live connection, drops (only) the failing connections without aborting
the rest, and — being a total function — never raises; when the member
list resolves empty it returns no count (Python None) instead of a
count. -/
theorem claim8_broadcast_fanout (ids : List String)
    (conns : List (String × SendOutcome)) (exclude : Option String)
    (hne : ids ≠ []) (hid : ids.Nodup) (hck : (conns.map Prod.fst).Nodup) :
    (broadcast_to_room ids conns exclude).1 =
      some ((ids.filter (fun pid => decide (¬ exclude = some pid) &&
        (alookup conns pid == some SendOutcome.ok))).length) ∧
    (∀ q : String, alookup (broadcast_to_room ids conns exclude).2 q =
      if q ∈ ids ∧ ¬ exclude = some q ∧
          alookup conns q = some SendOutcome.fail
      then none else alookup conns q) := by
  have spec := broadcast_fanout_spec ids conns exclude hid hck
  refine ⟨?_, ?_⟩
  · simp only [broadcast_to_room, if_neg hne]
    exact congrArg some spec.1
  · intro q
    simp only [broadcast_to_room, if_neg hne]
    exact spec.2 q

/-- C8 counterexample: with an empty member list the operation returns
no count at all (the early return of Python None), so it does not
always return a count of successful deliveries. -/
theorem claim8_counterexample :
    (broadcast_to_room [] [("a", SendOutcome.ok)] none).1 = none ∧
    (broadcast_to_room [] [("a", SendOutcome.ok)] none).2 =
      [("a", SendOutcome.ok)] := by
  decide

/-- C8 witness: a three-member broadcast with one failing connection and
one excluded member counts one success and drops the failing
connection. -/
theorem claim8_broadcast_fanout_witness :
    (broadcast_to_room ["a", "b", "c"]
        [("a", SendOutcome.ok), ("b", SendOutcome.fail)] (some "c")).1 =
      some 1 ∧
    alookup (broadcast_to_room ["a", "b", "c"]
        [("a", SendOutcome.ok), ("b", SendOutcome.fail)] (some "c")).2 "b" =
      none ∧
    alookup (broadcast_to_room ["a", "b", "c"]
        [("a", SendOutcome.ok), ("b", SendOutcome.fail)] (some "c")).2 "a" =
      some SendOutcome.ok :=
  ⟨by
    rw [(claim8_broadcast_fanout ["a", "b", "c"]
      [("a", SendOutcome.ok), ("b", SendOutcome.fail)] (some "c")
      (by decide) (by decide) (by decide)).1]
    decide,
   by
    rw [(claim8_broadcast_fanout ["a", "b", "c"]
      [("a", SendOutcome.ok), ("b", SendOutcome.fail)] (some "c")
      (by decide) (by decide) (by decide)).2 "b"]
    decide,
   by
    rw [(claim8_broadcast_fanout ["a", "b", "c"]
      [("a", SendOutcome.ok), ("b", SendOutcome.fail)] (some "c")
      (by decide) (by decide) (by decide)).2 "a"]
    decide⟩

/-- pydantic Player parsing inverts serialization. -/
theorem player_roundtrip (p : Player) :
    playerOfJson (playerToJson p) = some p := by
  simp [playerToJson, playerOfJson, jStr, jBoolD, alookup]

/-- String lists round-trip. -/
theorem strListOf_roundtrip (l : List String) :
    strListOf (l.map Json.str) = some l := by
  induction l with
  | nil => simp [strListOf]
  | cons hd tl ih => simp [strListOf, ih]

/-- Puzzle entries round-trip. -/
theorem puzzle_roundtrip (p : Puzzle) :
    puzzleOfJson (puzzleToJson p) = some p := by
  obtain ⟨kind, diff, comp, cs, req, hint, locks, ds⟩ := p
  cases hl : locks with
  | none =>
    cases hd : ds with
    | none =>
      subst hl hd
      simp [puzzleToJson, puzzleOfJson, jStr, jBoolD, jIntD, alookup,
        strListOf_roundtrip, jStrList]
    | some v =>
      subst hl hd
      simp [puzzleToJson, puzzleOfJson, jStr, jBoolD, jIntD, alookup,
        strListOf_roundtrip, jStrList]
  | some n =>
    cases hd : ds with
    | none =>
      subst hl hd
      simp [puzzleToJson, puzzleOfJson, jStr, jBoolD, jIntD, alookup,
        strListOf_roundtrip, jStrList]
    | some v =>
      subst hl hd
      simp [puzzleToJson, puzzleOfJson, jStr, jBoolD, jIntD, alookup,
        strListOf_roundtrip, jStrList]

/-- Completion sets round-trip. -/
theorem completionm_roundtrip (m : List (String × Bool)) :
    completionOfJson (completionToJson m) = some m := by
  induction m with
  | nil => simp [completionToJson, completionOfJson, completionFieldsOf]
  | cons hd tl ih =>
    simp only [completionToJson, completionOfJson, List.map_cons] at ih ⊢
    simp [completionFieldsOf, ih]

/-- The player map round-trips field by field. -/
theorem playersFields_roundtrip (l : List (String × Player)) :
    mapFieldsOf playerOfJson (List.map (fun p => (p.1, playerToJson p.2)) l) =
      some l := by
  induction l with
  | nil => simp [mapFieldsOf]
  | cons hd tl ih => simp [mapFieldsOf, player_roundtrip, ih]

/-- The puzzles map round-trips field by field. -/
theorem puzzlesFields_roundtrip (l : List (String × Puzzle)) :
    mapFieldsOf puzzleOfJson (List.map (fun p => (p.1, puzzleToJson p.2)) l) =
      some l := by
  induction l with
  | nil => simp [mapFieldsOf]
  | cons hd tl ih => simp [mapFieldsOf, puzzle_roundtrip, ih]

/-- The stage-completion map round-trips field by field. -/
theorem completionsFields_roundtrip
    (l : List (String × List (String × Bool))) :
    mapFieldsOf completionOfJson
      (List.map (fun p => (p.1, completionToJson p.2)) l) = some l := by
  induction l with
  | nil => simp [mapFieldsOf]
  | cons hd tl ih => simp [mapFieldsOf, completionm_roundtrip, ih]

/-- A stored room record parses back to exactly the room that was
stored; the stamped last_activity key is ignored by parsing. -/
theorem room_roundtrip (r : GameRoom) (now : Int) :
    roomOfJson (get_room_data (store_room_data (roomToJson r) now)) =
      some r := by
  obtain ⟨code, players, stage, alert, timer, status, puzzles, sc, nev, lpd,
    tva, tvy, tvn, tvi, tvtl, oal, shorts⟩ := r
  cases oal <;> cases lpd <;> cases tvi <;>
    simp [roomToJson, roomOfJson, store_room_data, get_room_data, aset,
      alookup, jStr, jBoolD, jIntD, mapToJson, playersFields_roundtrip,
      puzzlesFields_roundtrip, completionsFields_roundtrip,
      strListOf_roundtrip, jStrList, mapOfJson]

/-- The players and stage_completion entries of a stored record are the
serializations of the room's fields, for any activity timestamp. -/
theorem jGet_store_room (r : GameRoom) (t : Int) :
    jGet (store_room_data (roomToJson r) t) "players" =
      some (mapToJson playerToJson r.players) ∧
    jGet (store_room_data (roomToJson r) t) "stage_completion" =
      some (mapToJson completionToJson r.stage_completion) := by
  rcases hoal : r.original_alert_level with _ | n <;>
    simp [store_room_data, roomToJson, hoal, aset, alookup, jGet]

/-- C9: persisting a room, reloading it, and persisting the reloaded
record again without mutation yields identical players and
stage_completion maps (in fact the reloaded room equals the original
record entirely; only the last_activity stamp differs between the two
stored values). -/
theorem claim9_persist_reload_roundtrip (r : GameRoom) (now now2 : Int) :
    roomOfJson (get_room_data (store_room_data (roomToJson r) now)) =
      some r ∧
    (∀ r2 : GameRoom,
      roomOfJson (get_room_data (store_room_data (roomToJson r) now)) =
        some r2 →
      r2.players = r.players ∧
      r2.stage_completion = r.stage_completion ∧
      jGet (store_room_data (roomToJson r2) now2) "players" =
        jGet (store_room_data (roomToJson r) now) "players" ∧
      jGet (store_room_data (roomToJson r2) now2) "stage_completion" =
        jGet (store_room_data (roomToJson r) now) "stage_completion") := by
  refine ⟨room_roundtrip r now, ?_⟩
  intro r2 h
  have hr : r2 = r := by
    rw [room_roundtrip r now] at h
    exact ((Option.some.injEq r r2).mp h).symm
  subst hr
  refine ⟨rfl, rfl, ?_, ?_⟩
  · rw [(jGet_store_room r2 now2).1, (jGet_store_room r2 now).1]
  · rw [(jGet_store_room r2 now2).2, (jGet_store_room r2 now).2]

/-- C9 witness at the concrete three-player room. -/
theorem claim9_persist_reload_roundtrip_witness :
    roomOfJson (get_room_data (store_room_data (roomToJson threeRoom) 11)) =
      some threeRoom ∧
    (threeRoom.players = threeRoom.players ∧
     threeRoom.stage_completion = threeRoom.stage_completion ∧
     jGet (store_room_data (roomToJson threeRoom) 22) "players" =
       jGet (store_room_data (roomToJson threeRoom) 11) "players" ∧
     jGet (store_room_data (roomToJson threeRoom) 22) "stage_completion" =
       jGet (store_room_data (roomToJson threeRoom) 11) "stage_completion") :=
  ⟨(claim9_persist_reload_roundtrip threeRoom 11 22).1,
   (claim9_persist_reload_roundtrip threeRoom 11 22).2 threeRoom
     (claim9_persist_reload_roundtrip threeRoom 11 22).1⟩

/-! Structural facts about each operation: which advance the stage and
none of them touch the roster's role assignment except select_role and
join. -/

theorem advance_stage_room_stage (room : GameRoom) (roll : Bool)
    (choice : Nat) (conns : List String) :
    (advance_stage room roll choice conns).room.stage = room.stage + 1 := by
  simp only [advance_stage]
  split <;> rfl

theorem advance_stage_room_players (room : GameRoom) (roll : Bool)
    (choice : Nat) (conns : List String) :
    (advance_stage room roll choice conns).room.players = room.players := by
  simp only [advance_stage]
  split <;> rfl

theorem start_game_ws_players (room : GameRoom) (pid : String) (roll : Bool)
    (choice : Nat) (conns : List String) :
    (start_game_ws room pid roll choice conns).room.players = room.players := by
  simp only [start_game_ws, errReply]
  split_ifs <;> rfl

theorem puzzle_solution_individual_players (room : GameRoom) (pid : String)
    (puzzle : Puzzle) (sol : Solution) (roll : Bool) (choice : Nat)
    (conns : List String) :
    (puzzle_solution_individual room pid puzzle sol roll choice conns).room.players =
      room.players := by
  simp only [puzzle_solution_individual]
  split_ifs <;> simp [advance_stage_room_players]

theorem puzzle_solution_team_players (room : GameRoom) (pid : String)
    (tp : Puzzle) (sol : Solution) (roll : Bool) (choice : Nat)
    (conns : List String) :
    (puzzle_solution_team room pid tp sol roll choice conns).room.players =
      room.players := by
  simp only [puzzle_solution_team]
  split_ifs <;> simp [advance_stage_room_players]

theorem puzzle_solution_ws_players (room : GameRoom) (pid : String)
    (sol : Solution) (roll : Bool) (choice : Nat) (conns : List String) :
    (puzzle_solution_ws room pid sol roll choice conns).room.players =
      room.players := by
  simp only [puzzle_solution_ws]
  cases alookup room.puzzles pid with
  | some puzzle => simp [puzzle_solution_individual_players]
  | none =>
    cases alookup room.puzzles "team" with
    | some tp => simp [puzzle_solution_team_players]
    | none => rfl

theorem complete_stage_ws_players (room : GameRoom) (pid : String)
    (cur : Int) (roll : Bool) (choice : Nat) (conns : List String) :
    (complete_stage_ws room pid cur roll choice conns).room.players =
      room.players := by
  simp only [complete_stage_ws, errReply]
  split_ifs <;> simp [advance_stage_room_players]

theorem handle_power_usage_players (room : GameRoom) (pid role : String) :
    (handle_power_usage room pid role).1.players = room.players := by
  simp only [handle_power_usage]
  split_ifs <;> try rfl
  · cases alookup room.puzzles pid with
    | some puz => cases puz.locks <;> simp <;> split_ifs <;> rfl
    | none => rfl
  · cases room.original_alert_level <;> rfl

theorem handle_power_usage_stage (room : GameRoom) (pid role : String) :
    (handle_power_usage room pid role).1.stage = room.stage := by
  simp only [handle_power_usage]
  split_ifs <;> try rfl
  · cases alookup room.puzzles pid with
    | some puz => cases puz.locks <;> simp <;> split_ifs <;> rfl
    | none => rfl
  · cases room.original_alert_level <;> rfl

theorem use_power_ws_players (room : GameRoom) (pid : String) :
    (use_power_ws room pid).room.players = room.players := by
  simp only [use_power_ws]
  exact handle_power_usage_players room pid (playerRole room pid)

theorem use_power_ws_stage (room : GameRoom) (pid : String) :
    (use_power_ws room pid).room.stage = room.stage := by
  simp only [use_power_ws]
  exact handle_power_usage_stage room pid (playerRole room pid)

theorem initiate_timer_vote_players (room : GameRoom) (pid : String) :
    (initiate_timer_vote room pid).room.players = room.players := by
  simp only [initiate_timer_vote, errReply]
  split_ifs <;> rfl

theorem initiate_timer_vote_stage (room : GameRoom) (pid : String) :
    (initiate_timer_vote room pid).room.stage = room.stage := by
  simp only [initiate_timer_vote, errReply]
  split_ifs <;> rfl

theorem extend_timer_vote_players (room : GameRoom) (pid : String) (v : Bool) :
    (extend_timer_vote room pid v).room.players = room.players := by
  cases v <;> simp only [extend_timer_vote, errReply] <;> split_ifs <;> rfl

theorem extend_timer_vote_stage (room : GameRoom) (pid : String) (v : Bool) :
    (extend_timer_vote room pid v).room.stage = room.stage := by
  cases v <;> simp only [extend_timer_vote, errReply] <;> split_ifs <;> rfl

theorem process_timer_vote_result_players (room : GameRoom) :
    (process_timer_vote_result room).room.players = room.players := by
  simp only [process_timer_vote_result]
  split_ifs <;> rfl

theorem process_timer_vote_result_stage (room : GameRoom) :
    (process_timer_vote_result room).room.stage = room.stage := by
  simp only [process_timer_vote_result]
  split_ifs <;> rfl

theorem markDisconnected_stage (room : GameRoom) (pid : String) :
    (markDisconnected room pid).stage = room.stage := by
  unfold markDisconnected
  split <;> rfl

theorem handle_player_disconnect_stage (room : GameRoom) (pid : String) :
    (handle_player_disconnect room pid).room.stage = room.stage := by
  rw [handle_player_disconnect_room]
  split <;> simp [markDisconnected_stage]

theorem leave_game_ws_stage (room : GameRoom) (pid : String) :
    (leave_game_ws room pid).room.stage = room.stage := by
  simp only [leave_game_ws]
  split_ifs <;> rfl

theorem join_room_api_stage (room : GameRoom) (pid name : String) :
    (join_room_api room pid name).room.stage = room.stage := by
  simp only [join_room_api, errReply]
  split_ifs <;> rfl

theorem timer_tick_stage (room : GameRoom) :
    (timer_tick room).room.stage = room.stage := by
  simp only [timer_tick]
  split <;> [rfl; (split <;> simp [TickResult.room])]

theorem timer_tick_players (room : GameRoom) :
    (timer_tick room).room.players = room.players := by
  simp only [timer_tick]
  split <;> [rfl; (split <;> simp [TickResult.room])]

theorem restore_alert_level_players (room : GameRoom) :
    (restore_alert_level room).1.players = room.players := by
  simp only [restore_alert_level]
  split <;> rfl

theorem restore_alert_level_stage (room : GameRoom) :
    (restore_alert_level room).1.stage = room.stage := by
  simp only [restore_alert_level]
  split <;> rfl

theorem lookout_alert_reduce_players (room : GameRoom) :
    (lookout_alert_reduce room).1.players = room.players := by
  simp only [lookout_alert_reduce]
  split_ifs <;> rfl

theorem lookout_alert_reduce_stage (room : GameRoom) :
    (lookout_alert_reduce room).1.stage = room.stage := by
  simp only [lookout_alert_reduce]
  split_ifs <;> rfl

theorem restore_lookout_effect_players (room : GameRoom) (orig : Int) :
    (restore_lookout_effect room orig).players = room.players := by
  simp only [restore_lookout_effect]
  split_ifs <;> rfl

theorem restore_lookout_effect_stage (room : GameRoom) (orig : Int) :
    (restore_lookout_effect room orig).stage = room.stage := by
  simp only [restore_lookout_effect]
  split_ifs <;> rfl

/-- The roles held by the roster, in order. -/
def rolesOf (ps : List (String × Player)) : List String :=
  ps.map (fun p => p.2.role)

/-- Each nonempty role occurs at most once in the list. -/
def rolesUniqueL : List String → Bool
  | [] => true
  | r :: rest =>
    ((r == "") || rest.all (fun q => ! (q == r))) && rolesUniqueL rest

/-- The per-room invariant: every role other than the unassigned empty
string is held by at most one player. -/
def rolesUnique (ps : List (String × Player)) : Bool :=
  rolesUniqueL (rolesOf ps)

theorem rolesUniqueL_iff (l : List String) :
    rolesUniqueL l = true ↔ l.Pairwise (fun a b => a = "" ∨ ¬ b = a) := by
  induction l with
  | nil => simp [rolesUniqueL]
  | cons hd tl ih =>
    simp only [rolesUniqueL, Bool.and_eq_true, Bool.or_eq_true, beq_iff_eq,
      List.all_eq_true, Bool.not_eq_eq_eq_not, Bool.not_true, beq_eq_false_iff_ne,
      ne_eq, List.pairwise_cons, ih]
    constructor
    · rintro ⟨h1, h2⟩
      refine ⟨?_, h2⟩
      intro b hb
      rcases h1 with h | h
      · exact Or.inl h
      · exact Or.inr (h b hb)
    · rintro ⟨h1, h2⟩
      refine ⟨?_, h2⟩
      by_cases he : hd = ""
      · exact Or.inl he
      · refine Or.inr ?_
        intro b hb
        rcases h1 b hb with h | h
        · exact absurd h he
        · exact h

/-- Members of an updated association list either come from the original
or are the new binding. -/
theorem mem_aset {α : Type} (l : List (String × α)) (k : String) (v : α) :
    ∀ x ∈ aset l k v, x ∈ l ∨ x = (k, v) := by
  induction l with
  | nil => simp [aset]
  | cons hd tl ih =>
    intro x hx
    by_cases hk : hd.1 = k
    · simp only [aset, if_pos hk, List.mem_cons] at hx
      rcases hx with hx | hx
      · right; exact hx
      · left; exact List.mem_cons_of_mem hd hx
    · simp only [aset, if_neg hk, List.mem_cons] at hx
      rcases hx with hx | hx
      · left; exact hx ▸ List.mem_cons_self hd tl
      · rcases ih x hx with h | h
        · left; exact List.mem_cons_of_mem hd h
        · right; exact h

/-- Updating a present entry with one carrying the same role leaves the
role list unchanged. -/
theorem aset_roles_eq (ps : List (String × Player)) (k : String)
    (p v : Player) (hp : alookup ps k = some p) (hrole : v.role = p.role) :
    rolesOf (aset ps k v) = rolesOf ps := by
  induction ps with
  | nil => simp [alookup] at hp
  | cons hd tl ih =>
    by_cases hk : hd.1 = k
    · simp [alookup, hk] at hp
      simp [aset, hk, rolesOf, hrole, hp]
    · simp [alookup, hk] at hp
      simp only [aset, if_neg hk, rolesOf, List.map_cons]
      have htl := ih hp
      simp only [rolesOf] at htl
      rw [htl]

/-- Assigning a role that no other entry holds preserves uniqueness
(distinct keys assumed, as for a dict). -/
theorem rolesUnique_aset_role (ps : List (String × Player)) (pid : String)
    (v : Player)
    (hknd : (ps.map Prod.fst).Nodup)
    (hU : rolesUnique ps = true)
    (hfree : ∀ q ∈ ps, q.2.role = v.role → q.1 = pid) :
    rolesUnique (aset ps pid v) = true := by
  induction ps with
  | nil => simp [aset, rolesUnique, rolesOf, rolesUniqueL]
  | cons hd tl ih =>
    simp only [List.map_cons, List.nodup_cons] at hknd
    simp only [rolesUnique, rolesOf, List.map_cons, rolesUniqueL,
      Bool.and_eq_true, Bool.or_eq_true, beq_iff_eq, List.all_eq_true,
      Bool.not_eq_eq_eq_not, Bool.not_true, beq_eq_false_iff_ne, ne_eq] at hU
    by_cases hk : hd.1 = pid
    · simp only [aset, if_pos hk, rolesUnique, rolesOf, List.map_cons,
        rolesUniqueL, Bool.and_eq_true, Bool.or_eq_true, beq_iff_eq,
        List.all_eq_true, Bool.not_eq_eq_eq_not, Bool.not_true,
        beq_eq_false_iff_ne, ne_eq]
      refine ⟨?_, ?_⟩
      · by_cases hv : v.role = ""
        · exact Or.inl hv
        · refine Or.inr ?_
          intro r hr hcontra
          rcases List.mem_map.mp hr with ⟨q, hq, rfl⟩
          have hqpid := hfree q (List.mem_cons_of_mem hd hq) hcontra
          have : q.1 ∈ tl.map Prod.fst := List.mem_map.mpr ⟨q, hq, rfl⟩
          rw [hqpid, ← hk] at this
          exact hknd.1 this
      · have hU2 := hU.2
        simp only [rolesUnique, rolesOf, rolesUniqueL] at hU2 ⊢
        exact hU2
    · simp only [aset, if_neg hk, rolesUnique, rolesOf, List.map_cons,
        rolesUniqueL, Bool.and_eq_true, Bool.or_eq_true, beq_iff_eq,
        List.all_eq_true, Bool.not_eq_eq_eq_not, Bool.not_true,
        beq_eq_false_iff_ne, ne_eq]
      refine ⟨?_, ?_⟩
      · rcases hU.1 with h | h
        · exact Or.inl h
        · refine Or.inr ?_
          intro r hr
          rcases List.mem_map.mp hr with ⟨q, hq, rfl⟩
          rcases mem_aset tl pid v q hq with hmem | hnew
          · exact h q.2.role (List.mem_map.mpr ⟨q, hmem, rfl⟩)
          · rw [hnew]
            intro he
            have := hfree hd (List.mem_cons_self hd tl) he.symm
            exact hk this
      · refine ih hknd.2 ?_ ?_
        · simpa [rolesUnique, rolesOf] using hU.2
        · intro q hq
          exact hfree q (List.mem_cons_of_mem hd hq)

/-- Inserting or overwriting with an unassigned (empty) role preserves
uniqueness. -/
theorem rolesUnique_aset_empty (ps : List (String × Player)) (pid : String)
    (v : Player) (hv : v.role = "")
    (hU : rolesUnique ps = true) :
    rolesUnique (aset ps pid v) = true := by
  induction ps with
  | nil => simp [aset, rolesUnique, rolesOf, rolesUniqueL, hv]
  | cons hd tl ih =>
    simp only [rolesUnique, rolesOf, List.map_cons, rolesUniqueL,
      Bool.and_eq_true, Bool.or_eq_true, beq_iff_eq, List.all_eq_true,
      Bool.not_eq_eq_eq_not, Bool.not_true, beq_eq_false_iff_ne, ne_eq] at hU
    by_cases hk : hd.1 = pid
    · simp only [aset, if_pos hk, rolesUnique, rolesOf, List.map_cons,
        rolesUniqueL, Bool.and_eq_true, Bool.or_eq_true, beq_iff_eq,
        List.all_eq_true, Bool.not_eq_eq_eq_not, Bool.not_true,
        beq_eq_false_iff_ne, ne_eq]
      refine ⟨Or.inl hv, ?_⟩
      simpa [rolesUnique, rolesOf] using hU.2
    · simp only [aset, if_neg hk, rolesUnique, rolesOf, List.map_cons,
        rolesUniqueL, Bool.and_eq_true, Bool.or_eq_true, beq_iff_eq,
        List.all_eq_true, Bool.not_eq_eq_eq_not, Bool.not_true,
        beq_eq_false_iff_ne, ne_eq]
      refine ⟨?_, ?_⟩
      · by_cases he : hd.2.role = ""
        · exact Or.inl he
        · refine Or.inr ?_
          intro r hr
          rcases List.mem_map.mp hr with ⟨q, hq, rfl⟩
          rcases mem_aset tl pid v q hq with hmem | hnew
          · rcases hU.1 with h | h
            · exact absurd h he
            · exact h q.2.role (List.mem_map.mpr ⟨q, hmem, rfl⟩)
          · rw [hnew]
            simpa [hv] using fun e => he e.symm
      · refine ih ?_
        simpa [rolesUnique, rolesOf] using hU.2

/-- Removing an entry preserves uniqueness. -/
theorem rolesUnique_aerase (ps : List (String × Player)) (k : String)
    (hU : rolesUnique ps = true) : rolesUnique (aerase ps k) = true := by
  rw [rolesUnique, rolesUniqueL_iff] at hU ⊢
  simp only [rolesOf] at hU ⊢
  exact List.Pairwise.sublist
    (List.Sublist.map (fun p => p.2.role) (aerase_sublist ps k)) hU

/-- When the invariant holds and a player holds a nonempty role, no
other roster entry holds the same role. -/
theorem no_other_holder (ps : List (String × Player)) (pid : String)
    (p : Player) (hp : alookup ps pid = some p) (hrole : ¬ p.role = "")
    (hU : rolesUnique ps = true) :
    ∀ q ∈ ps, ¬ (q.2.role = p.role ∧ ¬ q.1 = pid) := by
  induction ps with
  | nil => simp
  | cons hd tl ih =>
    simp only [rolesUnique, rolesOf, List.map_cons, rolesUniqueL,
      Bool.and_eq_true, Bool.or_eq_true, beq_iff_eq, List.all_eq_true,
      Bool.not_eq_eq_eq_not, Bool.not_true, beq_eq_false_iff_ne, ne_eq] at hU
    by_cases hk : hd.1 = pid
    · simp only [alookup, if_pos hk] at hp
      have hdp : hd.2 = p := Option.some.inj hp
      intro q hq
      rcases List.mem_cons.mp hq with hq | hq
      · rw [hq]
        rintro ⟨_, hne⟩
        exact hne hk
      · rintro ⟨hr, _⟩
        rcases hU.1 with h | h
        · exact hrole (hdp ▸ h)
        · exact h q.2.role (List.mem_map.mpr ⟨q, hq, rfl⟩)
            (by rw [hr, ← hdp])
    · simp only [alookup, if_neg hk] at hp
      intro q hq
      rcases List.mem_cons.mp hq with hq | hq
      · rw [hq]
        rintro ⟨hr, _⟩
        rcases hU.1 with h | h
        · exact hrole (hr ▸ h)
        · have hmem : p.role ∈ tl.map (fun q => q.2.role) :=
            List.mem_map.mpr ⟨(pid, p), alookup_mem tl pid p hp, rfl⟩
          exact h p.role hmem hr.symm
      · have hU2 : rolesUnique tl = true := by
          simpa [rolesUnique, rolesOf] using hU.2
        exact ih hp hU2 q hq

theorem handle_player_disconnect_players (room : GameRoom) (pid : String) :
    (handle_player_disconnect room pid).room.players =
      (markDisconnected room pid).players := by
  rw [handle_player_disconnect_room]
  split <;> rfl

theorem leave_game_ws_players (room : GameRoom) (pid : String) :
    (leave_game_ws room pid).room.players =
      (if amem room.players pid then aerase room.players pid
       else room.players) := by
  simp only [leave_game_ws]
  split_ifs <;> simp_all

theorem join_room_api_players (room : GameRoom) (pid name : String) :
    (join_room_api room pid name).room.players =
      (if room.status = "waiting" then
        aset room.players pid
          { id := pid, name := name, role := "", room_code := room.code,
            connected := true, is_host := false }
       else room.players) := by
  simp only [join_room_api, errReply]
  split_ifs <;> simp_all

/-- Role uniqueness is preserved by every modeled operation (roster keys
distinct, as for a Python dict). -/
theorem rolesUnique_preserved (op : GameOp) (room : GameRoom)
    (hknd : (room.players.map Prod.fst).Nodup)
    (hU : rolesUnique room.players = true) :
    rolesUnique (applyOp op room).players = true := by
  cases op with
  | start pid roll choice conns =>
    simp only [applyOp]
    rw [start_game_ws_players]
    exact hU
  | solvePuzzle pid sol roll choice conns =>
    simp only [applyOp]
    rw [puzzle_solution_ws_players]
    exact hU
  | completeStageAct pid cur roll choice conns =>
    simp only [applyOp]
    rw [complete_stage_ws_players]
    exact hU
  | selectRoleAct pid role =>
    simp only [applyOp, select_role_ws]
    split_ifs with h1 h2
    · exact hU
    · exact hU
    · cases hl : alookup room.players pid with
      | none => simpa using hU
      | some p =>
        simp only []
        refine rolesUnique_aset_role room.players pid { p with role := role }
          hknd hU ?_
        intro q hq hr
        by_contra hne
        exact h2 (List.any_eq_true.mpr ⟨q, hq, by simp [hr, hne]⟩)
  | usePower pid =>
    simp only [applyOp]
    rw [use_power_ws_players]
    exact hU
  | initiateVote pid =>
    simp only [applyOp]
    rw [initiate_timer_vote_players]
    exact hU
  | castVote pid v =>
    simp only [applyOp]
    rw [extend_timer_vote_players]
    exact hU
  | voteResult =>
    simp only [applyOp]
    rw [process_timer_vote_result_players]
    exact hU
  | disconnect pid =>
    simp only [applyOp]
    rw [handle_player_disconnect_players]
    unfold markDisconnected
    cases hl : alookup room.players pid with
    | none => exact hU
    | some p =>
      simp only []
      rw [rolesUnique, aset_roles_eq room.players pid p
        { p with connected := false } hl rfl]
      exact hU
  | leave pid =>
    simp only [applyOp]
    rw [leave_game_ws_players]
    split
    · exact rolesUnique_aerase room.players pid hU
    · exact hU
  | join pid name =>
    simp only [applyOp]
    rw [join_room_api_players]
    split
    · exact rolesUnique_aset_empty room.players pid _ rfl hU
    · exact hU
  | tick =>
    simp only [applyOp]
    rw [timer_tick_players]
    exact hU
  | restoreAlert =>
    simp only [applyOp]
    rw [restore_alert_level_players]
    exact hU
  | lookoutReduce =>
    simp only [applyOp]
    rw [lookout_alert_reduce_players]
    exact hU
  | restoreLookout orig =>
    simp only [applyOp]
    rw [restore_lookout_effect_players]
    exact hU
  | resetLookout =>
    simp only [applyOp]
    exact hU

/-- C6: a select-role request naming a role already held by a different
player is always rejected with the role-already-taken error and leaves
the room unchanged, and the at-most-one-holder-per-role invariant is
preserved by every modeled operation. -/
theorem claim6_role_uniqueness :
    (∀ (room : GameRoom) (pid role : String) (q : String × Player),
      q ∈ room.players → ¬ q.1 = pid → q.2.role = role → ¬ role = "" →
      select_role_ws room pid role =
        errReply room "role_selection" "Role already taken") ∧
    (∀ (op : GameOp) (room : GameRoom),
      (room.players.map Prod.fst).Nodup →
      rolesUnique room.players = true →
      rolesUnique (applyOp op room).players = true) := by
  refine ⟨?_, rolesUnique_preserved⟩
  intro room pid role q hq hne hr hrole
  unfold select_role_ws
  rw [if_neg hrole]
  rw [if_pos (List.any_eq_true.mpr ⟨q, hq, by simp [hr, hne]⟩)]

/-- C6 witness: the unassigned player of the pair room cannot take the
held Hacker role, and uniqueness survives a tick. -/
theorem claim6_role_uniqueness_witness :
    select_role_ws pairRoom "p2" "Hacker" =
      errReply pairRoom "role_selection" "Role already taken" ∧
    rolesUnique (applyOp GameOp.tick pairRoom).players = true :=
  ⟨(claim6_role_uniqueness).1 pairRoom "p2" "Hacker"
      ("p1", mkP "p1" "A" "Hacker" true true) (by decide) (by decide)
      (by decide) (by decide),
   (claim6_role_uniqueness).2 GameOp.tick pairRoom (by decide) (by decide)⟩

/-- C10: re-selecting the role one already holds is accepted (the
duplicate check skips the requester) and leaves the room record exactly
unchanged, broadcasting the usual confirmation. -/
theorem claim10_reselect_own_role (room : GameRoom) (pid : String)
    (p : Player) (hp : alookup room.players pid = some p)
    (hrole : ¬ p.role = "") (hU : rolesUnique room.players = true) :
    select_role_ws room pid p.role =
      { room := room, broadcasts := [Msg.role_confirmed pid p.role],
        toSender := [], direct := [], effects := [] } := by
  have hno := no_other_holder room.players pid p hp hrole hU
  unfold select_role_ws
  rw [if_neg hrole]
  rw [if_neg (by
    simp only [List.any_eq_true]
    rintro ⟨q, hq, hcond⟩
    exact hno q hq (by simpa using hcond))]
  rw [hp]
  have hid : aset room.players pid { p with role := p.role } = room.players :=
    aset_id room.players pid p hp
  simp only [hid]

/-- C10 witness: the host re-selecting Hacker leaves the pair room
unchanged. -/
theorem claim10_reselect_own_role_witness :
    select_role_ws pairRoom "p1" "Hacker" =
      { room := pairRoom, broadcasts := [Msg.role_confirmed "p1" "Hacker"],
        toSender := [], direct := [], effects := [] } :=
  claim10_reselect_own_role pairRoom "p1" (mkP "p1" "A" "Hacker" true true)
    (by decide) (by decide) (by decide)

/-- Whether an operation is the start_game handler (the only one that
writes an absolute stage value instead of incrementing). -/
def isStartOp : GameOp → Bool
  | GameOp.start _ _ _ _ => true
  | _ => false

theorem select_role_ws_stage (room : GameRoom) (pid role : String) :
    (select_role_ws room pid role).room.stage = room.stage := by
  simp only [select_role_ws, errReply]
  split_ifs <;> rfl

/-- The individual puzzle-solution branch leaves the stage unchanged or
increments it by one, the latter only when (after marking the submitted
puzzle completed) every individual puzzle is completed and no team
puzzle is left uncompleted. -/
theorem puzzle_solution_individual_stage (room : GameRoom) (pid : String)
    (puzzle : Puzzle) (sol : Solution) (roll : Bool) (choice : Nat)
    (conns : List String) :
    (puzzle_solution_individual room pid puzzle sol roll choice conns).room.stage =
      room.stage ∨
    ((puzzle_solution_individual room pid puzzle sol roll choice conns).room.stage =
        room.stage + 1 ∧
      allIndividualCompleted
        (aset room.puzzles pid { puzzle with completed := true }) = true ∧
      teamBlocking
        (aset room.puzzles pid { puzzle with completed := true }) = false) := by
  by_cases h1 : validate_puzzle_solution puzzle sol = true
  · by_cases h2 : allIndividualCompleted
        (aset room.puzzles pid { puzzle with completed := true }) = true
    · by_cases h3 : teamBlocking
          (aset room.puzzles pid { puzzle with completed := true }) = true
      · left
        simp [puzzle_solution_individual, h1, h2, h3]
      · right
        refine ⟨?_, h2, by simpa using h3⟩
        simp [puzzle_solution_individual, h1, h2, h3,
          advance_stage_room_stage]
    · left
      simp [puzzle_solution_individual, h1, h2]
  · left
    simp [puzzle_solution_individual, h1]

/-- The team puzzle-solution branch leaves the stage unchanged or
increments it by one, the latter only when the stage-completing flag is
set (by the client payload or on the stored puzzle) or every puzzle
including the team one is completed. -/
theorem puzzle_solution_team_stage (room : GameRoom) (pid : String)
    (tp : Puzzle) (sol : Solution) (roll : Bool) (choice : Nat)
    (conns : List String) :
    (puzzle_solution_team room pid tp sol roll choice conns).room.stage =
      room.stage ∨
    ((puzzle_solution_team room pid tp sol roll choice conns).room.stage =
        room.stage + 1 ∧
      ((teamSolutionFlags sol).2 = true ∨ tp.completes_stage = true ∨
        allPuzzlesCompleted
          (aset room.puzzles "team" { tp with completed := true }) = true)) := by
  by_cases h1 : (teamSolutionFlags sol).1 = true
  · by_cases h2 : (teamSolutionFlags sol).2 = true ∨ tp.completes_stage = true
    · right
      refine ⟨?_, ?_⟩
      · simp [puzzle_solution_team, h1, h2, advance_stage_room_stage]
      · rcases h2 with h | h
        · exact Or.inl h
        · exact Or.inr (Or.inl h)
    · by_cases h3 : allPuzzlesCompleted
          (aset room.puzzles "team" { tp with completed := true }) = true
      · right
        refine ⟨?_, Or.inr (Or.inr h3)⟩
        simp [puzzle_solution_team, h1, h2, h3, advance_stage_room_stage]
      · left
        simp [puzzle_solution_team, h1, h2, h3]
  · left
    simp [puzzle_solution_team, h1]

/-- The complete_stage action advances exactly when the requester is the
host and the supplied stage matches, with no completion check. -/
theorem complete_stage_ws_stage (room : GameRoom) (pid : String) (cur : Int)
    (roll : Bool) (choice : Nat) (conns : List String) :
    (complete_stage_ws room pid cur roll choice conns).room.stage =
      (if playerIsHost room pid = true ∧ cur = room.stage then room.stage + 1
       else room.stage) := by
  by_cases h1 : playerIsHost room pid = true
  · by_cases h2 : cur = room.stage
    · simp [complete_stage_ws, h1, h2, advance_stage_room_stage]
    · simp [complete_stage_ws, errReply, h1, h2]
  · simp [complete_stage_ws, errReply, h1]

/-- start_game either rejects (leaving the room untouched) or writes
stage 1. -/
theorem start_game_ws_stage (room : GameRoom) (pid : String) (roll : Bool)
    (choice : Nat) (conns : List String) :
    (start_game_ws room pid roll choice conns).room = room ∨
    (start_game_ws room pid roll choice conns).room.stage = 1 := by
  simp only [start_game_ws, errReply]
  split_ifs <;> simp

/-- Every operation other than start_game never decreases the stage. -/
theorem stage_monotone_nonstart (op : GameOp) (room : GameRoom)
    (hop : isStartOp op = false) :
    room.stage ≤ (applyOp op room).stage := by
  cases op with
  | start pid roll choice conns => simp [isStartOp] at hop
  | solvePuzzle pid sol roll choice conns =>
    simp only [applyOp, puzzle_solution_ws]
    cases alookup room.puzzles pid with
    | some puzzle =>
      rcases puzzle_solution_individual_stage room pid puzzle sol roll
        choice conns with h | h
      · rw [h]
      · rw [h.1]; omega
    | none =>
      cases alookup room.puzzles "team" with
      | some tp =>
        rcases puzzle_solution_team_stage room pid tp sol roll choice conns
          with h | h
        · rw [h]
        · rw [h.1]; omega
      | none => exact le_refl _
  | completeStageAct pid cur roll choice conns =>
    simp only [applyOp]
    rw [complete_stage_ws_stage]
    split <;> omega
  | selectRoleAct pid role =>
    simp only [applyOp]
    rw [select_role_ws_stage]
  | usePower pid =>
    simp only [applyOp]
    rw [use_power_ws_stage]
  | initiateVote pid =>
    simp only [applyOp]
    rw [initiate_timer_vote_stage]
  | castVote pid v =>
    simp only [applyOp]
    rw [extend_timer_vote_stage]
  | voteResult =>
    simp only [applyOp]
    rw [process_timer_vote_result_stage]
  | disconnect pid =>
    simp only [applyOp]
    rw [handle_player_disconnect_stage]
  | leave pid =>
    simp only [applyOp]
    rw [leave_game_ws_stage]
  | join pid name =>
    simp only [applyOp]
    rw [join_room_api_stage]
  | tick =>
    simp only [applyOp]
    rw [timer_tick_stage]
  | restoreAlert =>
    simp only [applyOp]
    rw [restore_alert_level_stage]
  | lookoutReduce =>
    simp only [applyOp]
    rw [lookout_alert_reduce_stage]
  | restoreLookout orig =>
    simp only [applyOp]
    rw [restore_lookout_effect_stage]
  | resetLookout =>
    simp only [applyOp]
    exact le_refl room.stage

/-- C1 (amended): the stage never decreases under any modeled operation
except start_game, which either rejects (room unchanged) or writes the
absolute stage 1; the individual puzzle-solution branch advances only
when all individual puzzles are completed and no team puzzle remains
uncompleted; the team branch advances only when the stage-completing
flag (taken from the client payload or the stored puzzle) is set or all
puzzles are completed; and the complete_stage action advances exactly
when the requester is the host and the supplied stage number matches —
it verifies no completion condition. -/
theorem claim1_stage_monotone_and_advance :
    (∀ (op : GameOp) (room : GameRoom), isStartOp op = false →
      room.stage ≤ (applyOp op room).stage) ∧
    (∀ (room : GameRoom) (pid : String) (roll : Bool) (choice : Nat)
      (conns : List String),
      (start_game_ws room pid roll choice conns).room = room ∨
      (start_game_ws room pid roll choice conns).room.stage = 1) ∧
    (∀ (room : GameRoom) (pid : String) (puzzle : Puzzle) (sol : Solution)
      (roll : Bool) (choice : Nat) (conns : List String),
      (puzzle_solution_individual room pid puzzle sol roll choice
          conns).room.stage = room.stage ∨
      ((puzzle_solution_individual room pid puzzle sol roll choice
          conns).room.stage = room.stage + 1 ∧
        allIndividualCompleted
          (aset room.puzzles pid { puzzle with completed := true }) = true ∧
        teamBlocking
          (aset room.puzzles pid { puzzle with completed := true }) = false)) ∧
    (∀ (room : GameRoom) (pid : String) (tp : Puzzle) (sol : Solution)
      (roll : Bool) (choice : Nat) (conns : List String),
      (puzzle_solution_team room pid tp sol roll choice conns).room.stage =
        room.stage ∨
      ((puzzle_solution_team room pid tp sol roll choice conns).room.stage =
          room.stage + 1 ∧
        ((teamSolutionFlags sol).2 = true ∨ tp.completes_stage = true ∨
          allPuzzlesCompleted
            (aset room.puzzles "team" { tp with completed := true }) = true))) ∧
    (∀ (room : GameRoom) (pid : String) (cur : Int) (roll : Bool)
      (choice : Nat) (conns : List String),
      (complete_stage_ws room pid cur roll choice conns).room.stage =
        (if playerIsHost room pid = true ∧ cur = room.stage
         then room.stage + 1 else room.stage)) :=
  ⟨stage_monotone_nonstart, start_game_ws_stage,
   puzzle_solution_individual_stage, puzzle_solution_team_stage,
   complete_stage_ws_stage⟩

/-- C1 counterexample: in the concrete in-progress room with no puzzle
completed and no team puzzle at all, a host complete_stage request with
the matching stage number advances the stage from 1 to 2 although
neither stage-completion condition of the claim holds. -/
theorem claim1_counterexample :
    unsolvedRoom.stage = 1 ∧
    (complete_stage_ws unsolvedRoom "h" 1 false 0 []).room.stage = 2 ∧
    allIndividualCompleted unsolvedRoom.puzzles = false ∧
    alookup unsolvedRoom.puzzles "team" = none := by
  decide

/-- C1 witness: monotonicity applied to a concrete tick. -/
theorem claim1_stage_monotone_and_advance_witness :
    isStartOp GameOp.tick = false ∧
    unsolvedRoom.stage ≤ (applyOp GameOp.tick unsolvedRoom).stage :=
  ⟨rfl, (claim1_stage_monotone_and_advance).1 GameOp.tick unsolvedRoom rfl⟩

end Heist
